import Mathlib

/-!
# kvzRTP receive path (`src/reader.cc`): header decoding, frame validation, receive loop

A shallow embedding of `kvz_rtp::reader` and the properties of its natural-language
specification.

Conventions of the embedding
* `uint8_t` is `Byte = Fin 256`; wider unsigned integers are `Nat`, with the reduction
  modulo `2^64` written out where the source computes in `size_t`.
* A pointer to bytes is `Option (List Byte)`: `none` is `nullptr`, `some bs` the readable
  bytes behind the pointer. A load outside of them is undefined behaviour, `Exec.undefined`.
* The host byte order is a parameter (`ByteOrder`): `ntohs`/`ntohl` and the raw
  `*(uint16_t *)p` / `*(uint32_t *)p` loads depend on it.
-/

namespace kvz_rtp

/-! ## Machine model -/

/-- A `uint8_t`. -/
abbrev Byte := Fin 256

/-- Byte order of the host that runs the reader. -/
inductive ByteOrder where
  | little
  | big
deriving DecidableEq, Repr

/-- Result of running a piece of the program: it returns a value, or it performs an
invalid memory access (a load through a null, unassigned or too short pointer). -/
inductive Exec (α : Type) where
  | returns (a : α)
  | undefined
deriving DecidableEq, Repr

/-- The load `*(uint16_t *)p` where `p` points at the bytes `b0 b1`. -/
def load_u16 (host : ByteOrder) (b0 b1 : Byte) : Nat :=
  match host with
  | .little => b0.val + 256 * b1.val
  | .big => 256 * b0.val + b1.val

/-- The load `*(uint32_t *)p` where `p` points at the bytes `b0 b1 b2 b3`. -/
def load_u32 (host : ByteOrder) (b0 b1 b2 b3 : Byte) : Nat :=
  match host with
  | .little => b0.val + 256 * b1.val + 65536 * b2.val + 16777216 * b3.val
  | .big => 16777216 * b0.val + 65536 * b1.val + 256 * b2.val + b3.val

/-- The C library `ntohs`: network (big-endian) to host order on a 16-bit value; the identity
on a big-endian host, a byte swap on a little-endian one. -/
def ntohs (host : ByteOrder) (x : Nat) : Nat :=
  match host with
  | .big => x % 65536
  | .little => (x % 256) * 256 + (x / 256) % 256

/-- The C library `ntohl`: network to host order on a 32-bit value. -/
def ntohl (host : ByteOrder) (x : Nat) : Nat :=
  match host with
  | .big => x % 4294967296
  | .little =>
    (x % 256) * 16777216 + ((x / 256) % 256) * 65536 + ((x / 65536) % 256) * 256
      + (x / 16777216) % 256

/-- The modulus of `size_t` arithmetic (LP64). -/
def SIZE_MODULUS : Nat := 2 ^ 64

/-- The conversion `(size_t)x` of a signed integer. -/
def to_size_t (x : Int) : Nat := (x % (SIZE_MODULUS : Int)).toNat

/-- Subtraction `a - b` in `size_t`: it wraps around modulo `2^64`. -/
def size_t_sub (a b : Nat) : Nat := (a % SIZE_MODULUS + SIZE_MODULUS - b % SIZE_MODULUS) % SIZE_MODULUS

/-- Multiplication `a * b` in `size_t`. -/
def size_t_mul (a b : Nat) : Nat := (a * b) % SIZE_MODULUS

/-- The conversion `(ssize_t)x` of a `size_t`: two's complement. -/
def to_ssize_t (x : Nat) : Int :=
  if x % SIZE_MODULUS < 2 ^ 63 then ((x % SIZE_MODULUS : Nat) : Int)
  else ((x % SIZE_MODULUS : Nat) : Int) - (SIZE_MODULUS : Int)

/-- The largest value of the C type `int`, the type of the `size` argument. -/
def INT_MAX : Int := 2147483647

/-! ## Types of `frame.hh` and `util.hh` used by `reader.cc` -/

/-- The status codes `reader.cc` names; every other enumerator of `rtp_error_t` (the enum
is declared in a header outside `src/`) is `other code`. -/
inductive rtp_error_t where
  | RTP_OK
  | RTP_NOT_READY
  | RTP_INVALID_VALUE
  | other (code : Nat)
deriving DecidableEq, Repr

/-- The fields of `kvz_rtp::frame::rtp_header` that `read_rtp_header` assigns. -/
structure rtp_header where
  version : Nat
  padding : Nat
  ext : Nat
  cc : Nat
  marker : Nat
  payload : Nat
  seq : Nat
  timestamp : Nat
  ssrc : Nat
deriving DecidableEq, Repr

/-- Modelled from the spec: `sizeof(kvz_rtp::frame::rtp_header)`; the struct is declared in
`frame.hh`, which is not under `src/`. Spec §3: "RtpHeader (12 bytes on the wire)". -/
def SIZEOF_RTP_HEADER : Nat := 12

/-- The constant `sizeof(uint32_t)`. -/
def SIZEOF_UINT32 : Nat := 4

/-- The macro `RTP_HEADER_VERSION` of `reader.cc`. -/
def RTP_HEADER_VERSION : Nat := 2

/-- The fields of `kvz_rtp::frame::rtp_frame` that `reader.cc` uses. `csrc` and `data` are
owning pointers (`none` = not allocated); `payload` is a pointer into `data`, kept as its
offset from `data` (`none` = `nullptr`). -/
structure rtp_frame where
  header : rtp_header
  csrc : Option (List Nat)
  padding_len : Nat
  payload_len : Nat
  total_len : Nat
  data : Option (List Byte)
  payload : Option Nat
deriving DecidableEq, Repr

/-- Modelled from the spec: `kvz_rtp::frame::alloc_rtp_frame()`, defined outside `src/`.
It yields a new frame with cleared header and lengths (spec §3: `padding_len` is 0 if there
is no padding, `csrc` is empty if `cc == 0`) and no payload view. The owned buffer is not
constructed by the allocator (spec §4.2 step 6, §9): `data0` is whatever is readable through
the frame's not yet assigned `data` pointer, `none` when a load through it faults. -/
def alloc_rtp_frame (data0 : Option (List Byte)) : Option rtp_frame :=
  some
    { header := ⟨0, 0, 0, 0, 0, 0, 0, 0, 0⟩
      csrc := none
      padding_len := 0
      payload_len := 0
      total_len := 0
      data := data0
      payload := none }

/-! ## `reader::read_rtp_header` -/

/-- The function `kvz_rtp::reader::read_rtp_header(dst, src)` (reader.cc:130-146). The result is the
returned status and the header behind `dst` after the call. -/
def read_rtp_header (host : ByteOrder) (dst : Option rtp_header) (src : Option (List Byte)) :
    Exec (rtp_error_t × Option rtp_header) :=
  match dst, src with
  | none, _ => .returns (.RTP_INVALID_VALUE, none)
  | some d, none => .returns (.RTP_INVALID_VALUE, some d)
  | some _, some s =>
    if 12 ≤ s.length then
      let b (i : Nat) : Byte := s.getD i 0
      .returns (.RTP_OK, some
        { version := ((b 0).val >>> 6) &&& 0x03
          padding := ((b 0).val >>> 5) &&& 0x01
          ext := ((b 0).val >>> 4) &&& 0x01
          cc := ((b 0).val >>> 0) &&& 0x0f
          marker := if (b 1).val &&& 0x80 ≠ 0 then 1 else 0
          payload := (b 1).val &&& 0x7f
          seq := ntohs host (load_u16 host (b 2) (b 3))
          timestamp := ntohl host (load_u32 host (b 4) (b 5) (b 6) (b 7))
          ssrc := ntohl host (load_u32 host (b 8) (b 9) (b 10) (b 11)) })
    else .undefined

/-! ## `reader::validate_rtp_frame` -/

/-- What a call of `validate_rtp_frame` leaves behind: the returned pointer (`none` is
`nullptr`), the global `rtp_errno`, the bytes behind the caller's `buffer`, and the number of
heap objects the call allocated and did not release before returning. -/
structure validate_result where
  ret : Option rtp_frame
  rtp_errno : rtp_error_t
  buffer : Option (List Byte)
  allocs : Nat
deriving DecidableEq, Repr

/-- The expression `new uint8_t[n]`: `n` bytes of indeterminate content. -/
def new_uint8 (n : Nat) : List Byte := List.replicate n 0

/-- The call `std::memcpy(dst, src, n)`: the first `n` bytes of `dst` become those of `src`;
`src` is only read. -/
def memcpy (dst src : List Byte) (n : Nat) : Exec (List Byte) :=
  if n ≤ src.length ∧ n ≤ dst.length then .returns (src.take n ++ dst.drop n) else .undefined

/-- The loop of reader.cc:199-202, `n` rounds of `csrc[i] = *(uint32_t *)ptr; ptr += 4`
with `ptr` at offset `off` of the buffer. -/
def read_csrc (host : ByteOrder) (buf : List Byte) : Nat → Nat → Exec (List Nat)
  | _, 0 => .returns []
  | off, n + 1 =>
    if off + SIZEOF_UINT32 ≤ buf.length then
      match read_csrc host buf (off + SIZEOF_UINT32) n with
      | .returns rest =>
        .returns (load_u32 host (buf.getD off 0) (buf.getD (off + 1) 0) (buf.getD (off + 2) 0)
          (buf.getD (off + 3) 0) :: rest)
      | .undefined => .undefined
    else .undefined

/-- Lines 226-230 of `validate_rtp_frame`: allocate the owned buffer, copy the packet, set the
payload pointer, return the frame. -/
def validate_copy (buf : List Byte) (frame : rtp_frame) (rtp_errno : rtp_error_t)
    (allocs : Nat) : Exec validate_result :=
  match memcpy (new_uint8 frame.total_len) buf frame.total_len with
  | .undefined => .undefined
  | .returns data =>
    .returns
      { ret := some { frame with
          data := some data
          payload := some (size_t_sub frame.total_len frame.payload_len) }
        rtp_errno := rtp_errno
        buffer := some buf
        allocs := allocs + 1 }

/-- Lines 213-224 of `validate_rtp_frame`: the padding block. The padding length is loaded
through `frame->data`, which line 226 assigns only afterwards. -/
def validate_padding (buf : List Byte) (frame : rtp_frame) (rtp_errno : rtp_error_t)
    (allocs : Nat) : Exec validate_result :=
  if frame.header.padding ≠ 0 then
    match frame.data with
    | none => .undefined
    | some d =>
      if size_t_sub frame.total_len 1 < d.length then
        let padding_len : Byte := d.getD (size_t_sub frame.total_len 1) 0
        if padding_len.val = 0 ∨ frame.payload_len ≤ padding_len.val then
          .returns ⟨none, .RTP_INVALID_VALUE, some buf, allocs⟩
        else
          validate_copy buf
            { frame with
              payload_len := size_t_sub frame.payload_len padding_len.val
              padding_len := padding_len.val }
            rtp_errno allocs
      else .undefined
  else validate_copy buf frame rtp_errno allocs

/-- Lines 184-208 of `validate_rtp_frame`: the CSRC block (`ptr` is at offset
`sizeof(rtp_header)`). The extension block that follows (205-208) only logs. -/
def validate_csrc (host : ByteOrder) (buf : List Byte) (frame : rtp_frame)
    (rtp_errno : rtp_error_t) (allocs : Nat) : Exec validate_result :=
  if frame.header.cc > 0 then
    if to_ssize_t (size_t_sub (size_t_sub frame.total_len SIZEOF_RTP_HEADER)
        (size_t_mul frame.header.cc SIZEOF_UINT32)) < 0 then
      .returns ⟨none, .RTP_INVALID_VALUE, some buf, allocs⟩
    else
      match read_csrc host buf SIZEOF_RTP_HEADER frame.header.cc with
      | .undefined => .undefined
      | .returns cs =>
        validate_padding buf
          { frame with
            csrc := some cs
            payload_len := size_t_sub frame.payload_len (size_t_mul frame.header.cc SIZEOF_UINT32) }
          rtp_errno (allocs + 1)
  else validate_padding buf frame rtp_errno allocs

/-- The function `kvz_rtp::reader::validate_rtp_frame(buffer, size)` (reader.cc:148-231).
`rtp_errno` is the value of the global before the call. -/
def validate_rtp_frame (host : ByteOrder) (data0 : Option (List Byte))
    (buffer : Option (List Byte)) (size : Int) (rtp_errno : rtp_error_t) :
    Exec validate_result :=
  match buffer with
  | none => .returns ⟨none, .RTP_INVALID_VALUE, none, 0⟩
  | some buf =>
    if size < 12 then .returns ⟨none, .RTP_INVALID_VALUE, some buf, 0⟩
    else
      match alloc_rtp_frame data0 with
      | none => .returns ⟨none, rtp_errno, some buf, 0⟩
      | some frame =>
        match read_rtp_header host (some frame.header) (some buf) with
        | .undefined => .undefined
        | .returns (status, hdr) =>
          if status ≠ .RTP_OK then .returns ⟨none, rtp_errno, some buf, 1⟩
          else
            let frame : rtp_frame :=
              { frame with
                header := hdr.getD frame.header
                total_len := to_size_t size
                payload_len := size_t_sub (to_size_t size) SIZEOF_RTP_HEADER }
            if frame.header.version ≠ RTP_HEADER_VERSION then
              .returns ⟨none, .RTP_INVALID_VALUE, some buf, 1⟩
            else validate_csrc host buf frame rtp_errno 1

/-- Modelled from the spec: the header encoder, which `src/` does not contain. Spec §4.1:
"`encode` ... should mirror the bit layout"; the layout is that of §3 (RFC 3550 §5.1):
byte 0 = version (2 bits), padding, extension, CSRC count (4 bits); byte 1 = marker,
payload type (7 bits); then sequence number, timestamp and SSRC, most significant byte
first. -/
def encode_rtp_header (h : rtp_header) : List Byte :=
  [ Fin.ofNat (h.version * 64 + h.padding * 32 + h.ext * 16 + h.cc),
    Fin.ofNat (h.marker * 128 + h.payload),
    Fin.ofNat (h.seq / 256), Fin.ofNat h.seq,
    Fin.ofNat (h.timestamp / 16777216), Fin.ofNat (h.timestamp / 65536),
    Fin.ofNat (h.timestamp / 256), Fin.ofNat h.timestamp,
    Fin.ofNat (h.ssrc / 16777216), Fin.ofNat (h.ssrc / 65536),
    Fin.ofNat (h.ssrc / 256), Fin.ofNat h.ssrc ]

/-! ## `reader::frame_receiver` and the delivery functions -/

/-- The reassembly state `fu` of `frame_receiver`,
a `std::pair<size_t, std::vector<rtp_frame *>>`. -/
abbrev fu_state := Nat × List rtp_frame

/-- The members of `kvz_rtp::reader` that the receive path uses. Function and argument
pointers are kept as addresses (`none` is `nullptr`). -/
structure reader where
  active_ : Bool
  recv_buffer_ : Option (List Byte)
  recv_buffer_len_ : Nat
  framesOut_ : List rtp_frame
  recv_hook_arg_ : Option Nat
  recv_hook_ : Option Nat
deriving DecidableEq, Repr

/-- Calls that leave `reader.cc`, in the order they are made. -/
inductive event where
  | update_receiver_stats (frame : rtp_frame)
  | process_opus_frame (frame : rtp_frame)
  | process_hevc_frame (frame : rtp_frame)
  | process_generic_frame (frame : rtp_frame)
  | recv_hook (hook : Nat) (arg : Option Nat) (frame : Option rtp_frame)
deriving DecidableEq, Repr

/-- A payload processor `process_*_frame(frame, fu, ret)`: from the frame, the reassembly
state and the current status it gives the resulting frame pointer and the new values of
`fu` and `ret`, both passed by reference. -/
abbrev processor := rtp_frame → fu_state → rtp_error_t → Option rtp_frame × fu_state × rtp_error_t

/-- What `frame_receiver` uses and `src/` does not define: the enumerators `RTP_FORMAT_*`
and the three payload processors. -/
structure collaborators where
  RTP_FORMAT_OPUS : Nat
  RTP_FORMAT_HEVC : Nat
  RTP_FORMAT_GENERIC : Nat
  process_opus_frame : processor
  process_hevc_frame : processor
  process_generic_frame : processor

/-- Outcome of one `socket.recvfrom` call as the environment decides it: the status and the
bytes of the datagram. -/
structure recvfrom_result where
  ret : rtp_error_t
  bytes : List Byte
deriving DecidableEq, Repr

/-- Modelled from the spec: `kvz_rtp::socket::recvfrom(buf, buf_len, 0, &sender_addr, &nread)`,
defined outside `src/`. Spec §6: `receive_from(buffer, capacity) -> (bytes_read, ...)`. At most
`buf_len` bytes of the datagram are stored at the start of the buffer and `nread` is their
number. The result is the status, the buffer after the call and `nread`. -/
def socket_recvfrom (buf : Option (List Byte)) (buf_len : Nat) (incoming : recvfrom_result) :
    rtp_error_t × Option (List Byte) × Int :=
  let stored := incoming.bytes.take buf_len
  (incoming.ret, buf.map (fun old => stored ++ old.drop stored.length), (stored.length : Int))

/-- The function `kvz_rtp::reader::recv_hook_installed()`. -/
def recv_hook_installed (rd : reader) : Bool := rd.recv_hook_.isSome

/-- The function `kvz_rtp::reader::recv_hook(frame)`: the calls it makes. -/
def recv_hook (rd : reader) (frame : Option rtp_frame) : List event :=
  match rd.recv_hook_ with
  | some hook => [.recv_hook hook rd.recv_hook_arg_ frame]
  | none => []

/-- The function `kvz_rtp::reader::add_outgoing_frame(frame)`. -/
def add_outgoing_frame (rd : reader) (frame : Option rtp_frame) : reader :=
  match frame with
  | none => rd
  | some f => { rd with framesOut_ := rd.framesOut_ ++ [f] }

/-- State after one round of the `while` loop of `frame_receiver`. `continues` is false when
the round left the function through `return`. -/
structure iteration where
  reader : reader
  fu : fu_state
  ret : rtp_error_t
  rtp_errno : rtp_error_t
  trace : List event
  continues : Bool
deriving DecidableEq, Repr

/-- Lines 261-278 of `frame_receiver`: the `switch` on the payload type. The result is the
frame pointer, `fu`, `ret` and the processor called. -/
def dispatch (env : collaborators) (frame : rtp_frame) (fu : fu_state) (ret : rtp_error_t) :
    (Option rtp_frame × fu_state × rtp_error_t) × List event :=
  if frame.header.payload = env.RTP_FORMAT_OPUS then
    (env.process_opus_frame frame fu ret, [.process_opus_frame frame])
  else if frame.header.payload = env.RTP_FORMAT_HEVC then
    (env.process_hevc_frame frame fu ret, [.process_hevc_frame frame])
  else if frame.header.payload = env.RTP_FORMAT_GENERIC then
    (env.process_generic_frame frame fu ret, [.process_generic_frame frame])
  else ((some frame, fu, .RTP_INVALID_VALUE), [])

/-- Lines 280-291 of `frame_receiver`: delivery of the frame according to `ret`. -/
def deliver (rd : reader) (frame : Option rtp_frame) (ret : rtp_error_t) : reader × List event :=
  if ret = .RTP_OK then
    if recv_hook_installed rd then (rd, recv_hook rd frame)
    else (add_outgoing_frame rd frame, [])
  else (rd, [])

/-- One round of the `while` loop of `kvz_rtp::reader::frame_receiver` (reader.cc:245-292). -/
def frame_receiver_iteration (host : ByteOrder) (env : collaborators)
    (data0 : Option (List Byte)) (incoming : recvfrom_result) (rd : reader) (fu : fu_state)
    (rtp_errno : rtp_error_t) : Exec iteration :=
  match socket_recvfrom rd.recv_buffer_ rd.recv_buffer_len_ incoming with
  | (ret, recv_buffer, nread) =>
    let rd : reader := { rd with recv_buffer_ := recv_buffer }
    if ret ≠ .RTP_OK then .returns ⟨rd, fu, ret, rtp_errno, [], false⟩
    else
      match validate_rtp_frame host data0 rd.recv_buffer_ nread rtp_errno with
      | .undefined => .undefined
      | .returns v =>
        match v.ret with
        | none => .returns ⟨rd, fu, ret, v.rtp_errno, [], true⟩
        | some validated =>
          match dispatch env validated fu ret with
          | ((frame, fu, ret), called) =>
            match deliver rd frame ret with
            | (rd, delivered) =>
              .returns ⟨rd, fu, ret, v.rtp_errno,
                .update_receiver_stats validated :: (called ++ delivered), true⟩

/-- State in which `frame_receiver` stops, with the calls it made. -/
structure receiver_run where
  reader : reader
  fu : fu_state
  rtp_errno : rtp_error_t
  trace : List event
deriving DecidableEq, Repr

/-- The function `kvz_rtp::reader::frame_receiver` (reader.cc:233-294), run against the
outcomes `incoming` of its successive `recvfrom` calls. It stops when `active()` is false at
the head of the loop or when a round returns; where the source would block in `recvfrom`
because no outcome is left, the run ends. -/
def frame_receiver (host : ByteOrder) (env : collaborators) (data0 : Option (List Byte)) :
    List recvfrom_result → reader → fu_state → rtp_error_t → Exec receiver_run
  | [], rd, fu, rtp_errno => .returns ⟨rd, fu, rtp_errno, []⟩
  | inc :: rest, rd, fu, rtp_errno =>
    if rd.active_ then
      match frame_receiver_iteration host env data0 inc rd fu rtp_errno with
      | .undefined => .undefined
      | .returns it =>
        if it.continues then
          match frame_receiver host env data0 rest it.reader it.fu it.rtp_errno with
          | .undefined => .undefined
          | .returns run => .returns { run with trace := it.trace ++ run.trace }
        else .returns ⟨it.reader, it.fu, it.rtp_errno, it.trace⟩
    else .returns ⟨rd, fu, rtp_errno, []⟩

/-! ## The consumer side: `active`, `install_recv_hook`, `pull_frame` -/

/-- The function `kvz_rtp::reader::active()`. -/
def active (rd : reader) : Bool := rd.active_

/-- The function `kvz_rtp::reader::install_recv_hook(arg, hook)` (reader.cc:113-122). -/
def install_recv_hook (rd : reader) (arg : Option Nat) (hook : Option Nat) : reader :=
  match hook with
  | none => rd
  | some h => { rd with recv_hook_ := some h, recv_hook_arg_ := arg }

/-- What `pull_frame` and `add_outgoing_frame` do with the state both threads share, in
program order: operations on the mutex `frames_mtx_`, accesses to the queue `framesOut_`,
reads of `active_`, and the 20 ms sleep of the polling loop. -/
inductive sync_action where
  | lock
  | unlock
  | queue_empty
  | queue_front
  | queue_erase
  | queue_push
  | read_active
  | sleep
deriving DecidableEq, Repr

/-- The accesses of `add_outgoing_frame(frame)` (reader.cc:100-106): a null frame returns at
once, otherwise `framesOut_.push_back(frame)` is the only statement. -/
def add_outgoing_frame_actions (frame : Option rtp_frame) : List sync_action :=
  match frame with
  | none => []
  | some _ => [.queue_push]

/-- How a call of `pull_frame` ends: it returns a frame pointer (`none` is `nullptr`), or it
is still in its polling loop when the record of the other thread's steps is used up, or it
takes `front()` of an empty vector. With the outcome go the session state and the accesses
made. -/
inductive pull_outcome where
  | returned (frame : Option rtp_frame) (rd : reader) (actions : List sync_action)
  | waiting (rd : reader) (actions : List sync_action)
  | undefined
deriving DecidableEq, Repr

/-- Lines 74-82 of `pull_frame`, after the polling loop: `nullptr` when the session is not
active, otherwise the front of the queue is read and erased between `lock()` and
`unlock()`. -/
def pull_frame_take (rd : reader) (actions : List sync_action) : pull_outcome :=
  if !active rd then .returned none rd (actions ++ [.read_active])
  else
    match rd.framesOut_ with
    | [] => .undefined
    | nextFrame :: rest =>
      .returned (some nextFrame) { rd with framesOut_ := rest }
        (actions ++ [.read_active, .lock, .queue_front, .queue_erase, .unlock])

/-- The polling loop of `pull_frame` (lines 70-72) followed by the rest of the function.
`others` records what the other thread does to the session during each sleep. The test
`framesOut_.empty() && this->active()` reads `active_` only when the queue is empty. -/
def pull_frame_poll : List (reader → reader) → reader → List sync_action → pull_outcome
  | [], rd, actions =>
    if rd.framesOut_.isEmpty && active rd then
      .waiting rd (actions ++ [.queue_empty, .read_active])
    else
      pull_frame_take rd
        (actions ++ (if rd.framesOut_.isEmpty then [.queue_empty, .read_active]
          else [.queue_empty]))
  | step :: rest, rd, actions =>
    if rd.framesOut_.isEmpty && active rd then
      pull_frame_poll rest (step rd) (actions ++ [.queue_empty, .read_active, .sleep])
    else
      pull_frame_take rd
        (actions ++ (if rd.framesOut_.isEmpty then [.queue_empty, .read_active]
          else [.queue_empty]))

/-- The function `kvz_rtp::reader::pull_frame()` (reader.cc:68-83). -/
def pull_frame (others : List (reader → reader)) (rd : reader) : pull_outcome :=
  pull_frame_poll others rd []

/-- The producer calling `add_outgoing_frame` on each frame of a list, in order. -/
def add_outgoing_frames (rd : reader) (frames : List rtp_frame) : reader :=
  frames.foldl (fun r f => add_outgoing_frame r (some f)) rd

/-- The consumer calling `pull_frame` `n` times while the other thread does nothing: the
pointers returned, in order, and the session afterwards; `none` when a call does not
return. -/
def pull_frames : Nat → reader → Option (List (Option rtp_frame) × reader)
  | 0, rd => some ([], rd)
  | n + 1, rd =>
    match pull_frame [] rd with
    | .returned frame rd1 _ =>
      match pull_frames n rd1 with
      | some (frames, rd2) => some (frame :: frames, rd2)
      | none => none
    | _ => none

/-! ## Sample packets and sessions -/

/-- A 24-byte packet: version 2, two CSRC entries, four payload bytes. -/
def packet_two_csrc : List Byte :=
  [0x82, 96, 0, 1, 0, 0, 0, 2, 0, 0, 0, 3, 0, 0, 0, 1, 1, 2, 3, 4, 9, 8, 7, 6]

/-- The frame a little-endian host makes of `packet_two_csrc`. -/
def frame_two_csrc : rtp_frame :=
  { header := ⟨2, 0, 0, 2, 0, 96, 1, 2, 3⟩
    csrc := some [16777216, 67305985]
    padding_len := 0
    payload_len := 4
    total_len := 24
    data := some packet_two_csrc
    payload := some 20 }

/-- A 12-byte packet: version 2, no CSRC, no padding, no extension, payload type 96, no
payload bytes. -/
def packet_header_only : List Byte := [0x80, 96, 0, 1, 0, 0, 0, 2, 0, 0, 0, 3]

/-- A 16-byte packet: version 2, one CSRC entry `00 00 00 01`, no payload bytes. -/
def packet_one_csrc : List Byte := [0x81, 96, 0, 1, 0, 0, 0, 2, 0, 0, 0, 3, 0, 0, 0, 1]

/-- A 16-byte packet: version 2, padding flag set, no CSRC, payload bytes `0a 0b 0c`
followed by one padding byte, the padding length 1. -/
def packet_padded : List Byte := [0xA0, 96, 0, 1, 0, 0, 0, 2, 0, 0, 0, 3, 10, 11, 12, 1]

/-- The frame made of `packet_header_only`. -/
def frame_header_only : rtp_frame :=
  { header := ⟨2, 0, 0, 0, 0, 96, 1, 2, 3⟩
    csrc := none
    padding_len := 0
    payload_len := 0
    total_len := 12
    data := some packet_header_only
    payload := some 12 }

/-- A processor that hands the frame on with `RTP_OK`. -/
def process_passthrough : processor := fun frame fu _ => (some frame, fu, .RTP_OK)

/-- Collaborators whose three payload types are 97, 98 and 0, so that 96 is none of them. -/
def collaborators_sample : collaborators :=
  { RTP_FORMAT_OPUS := 97
    RTP_FORMAT_HEVC := 98
    RTP_FORMAT_GENERIC := 0
    process_opus_frame := process_passthrough
    process_hevc_frame := process_passthrough
    process_generic_frame := process_passthrough }

/-- An active session with a receive buffer of 32 bytes, no hook and an empty queue. -/
def reader_started : reader :=
  { active_ := true
    recv_buffer_ := some (List.replicate 32 0)
    recv_buffer_len_ := 32
    framesOut_ := []
    recv_hook_arg_ := none
    recv_hook_ := none }

/-- A session that is no longer active while one frame is still in its queue. -/
def reader_stopped_pending : reader :=
  { active_ := false
    recv_buffer_ := some (List.replicate 32 0)
    recv_buffer_len_ := 32
    framesOut_ := [frame_header_only]
    recv_hook_arg_ := none
    recv_hook_ := none }

/-- A session that is no longer active and whose queue is empty. -/
def reader_stopped : reader :=
  { active_ := false
    recv_buffer_ := some (List.replicate 32 0)
    recv_buffer_len_ := 32
    framesOut_ := []
    recv_hook_arg_ := none
    recv_hook_ := none }

/-- A 12-byte packet of version 1. -/
def packet_version_one : List Byte := [0x40, 96, 0, 1, 0, 0, 0, 2, 0, 0, 0, 3]

/-- A 20-byte packet: version 2, CSRC count 3, but only 8 bytes after the header. -/
def packet_short_csrc : List Byte :=
  [0x83, 96, 0, 1, 0, 0, 0, 2, 0, 0, 0, 3, 0, 0, 0, 1, 0, 0, 0, 2]

/-- A 20-byte packet: version 2, padding flag set, one CSRC entry, payload bytes `0a 0b 0c`
and the padding length 0 in the last byte. -/
def packet_padded_csrc : List Byte :=
  [0xA1, 96, 0, 1, 0, 0, 0, 2, 0, 0, 0, 3, 0, 0, 0, 1, 10, 11, 12, 0]

/-- The packet `packet_header_only` with the extension flag set. -/
def packet_header_only_ext : List Byte := [0x90, 96, 0, 1, 0, 0, 0, 2, 0, 0, 0, 3]

/-- A 12-byte packet of version 2 with payload type 0. -/
def packet_generic : List Byte := [0x80, 0, 0, 1, 0, 0, 0, 2, 0, 0, 0, 3]

/-- The frame made of `packet_generic`. -/
def frame_generic : rtp_frame :=
  { header := ⟨2, 0, 0, 0, 0, 0, 1, 2, 3⟩
    csrc := none
    padding_len := 0
    payload_len := 0
    total_len := 12
    data := some packet_generic
    payload := some 12 }

/-- An active session with two frames in its queue. -/
def reader_two_pending : reader :=
  { active_ := true
    recv_buffer_ := some (List.replicate 32 0)
    recv_buffer_len_ := 32
    framesOut_ := [frame_generic, frame_header_only]
    recv_hook_arg_ := none
    recv_hook_ := none }

/-! ## Arithmetic of the machine model -/

set_option maxRecDepth 1000000 in
/-- The masks and shifts of `read_rtp_header` on one byte, as quotients and remainders. -/
theorem byte_bits (b : Byte) :
    (b.val >>> 6) &&& 0x03 = b.val >>> 6 ∧ (b.val >>> 0) &&& 0x0f = b.val &&& 0x0f ∧
    (if b.val &&& 0x80 ≠ 0 then 1 else 0) = b.val >>> 7 ∧
    (b.val >>> 6 = b.val / 64) ∧ ((b.val >>> 5) &&& 1 = b.val / 32 % 2) ∧
    ((b.val >>> 4) &&& 1 = b.val / 16 % 2) ∧ (b.val &&& 0x0f = b.val % 16) ∧
    (b.val >>> 7 = b.val / 128) ∧ (b.val &&& 0x7f = b.val % 128) := by
  revert b; decide

/-- Subtraction in `size_t` is exact when it does not go below zero. -/
theorem size_t_sub_eq (a b : Nat) (hb : b ≤ a) (ha : a < 2 ^ 64) : size_t_sub a b = a - b := by
  unfold size_t_sub SIZE_MODULUS
  omega

/-- The conversion `(size_t)` keeps a non-negative value below `2^64`. -/
theorem to_size_t_natCast (n : Nat) (h : n < 2 ^ 64) : to_size_t (n : Int) = n := by
  unfold to_size_t SIZE_MODULUS
  omega

/-- The test of line 189 is the comparison of the packet length with the CSRC list. -/
theorem csrc_check (n cc : Nat) (hn1 : 12 ≤ n) (hn : n < 2 ^ 31) (hcc : cc < 16) :
    to_ssize_t (size_t_sub (size_t_sub n SIZEOF_RTP_HEADER) (size_t_mul cc SIZEOF_UINT32)) < 0
      ↔ n < 12 + 4 * cc := by
  unfold to_ssize_t size_t_sub size_t_mul SIZE_MODULUS SIZEOF_RTP_HEADER SIZEOF_UINT32
  split <;> omega

/-- After `ntohs` a 16-bit load is the big-endian value of its bytes, on either host. -/
theorem ntohs_load (host : ByteOrder) (b0 b1 : Byte) :
    ntohs host (load_u16 host b0 b1) = b0.val * 2 ^ 8 + b1.val := by
  have h0 := b0.isLt
  have h1 := b1.isLt
  cases host <;> simp only [ntohs, load_u16] <;> omega

/-- After `ntohl` a 32-bit load is the big-endian value of its bytes, on either host. -/
theorem ntohl_load (host : ByteOrder) (b0 b1 b2 b3 : Byte) :
    ntohl host (load_u32 host b0 b1 b2 b3)
      = b0.val * 2 ^ 24 + b1.val * 2 ^ 16 + b2.val * 2 ^ 8 + b3.val := by
  have h0 := b0.isLt
  have h1 := b1.isLt
  have h2 := b2.isLt
  have h3 := b3.isLt
  cases host <;> simp only [ntohl, load_u32] <;> omega

/-! ## The header codec -/

/-- Claim C2: on every 12-byte sequence `read_rtp_header` returns `RTP_OK` and decodes the
RFC 3550 layout: version, padding, extension and CSRC count from byte 0, marker and payload
type from byte 1, then the big-endian sequence number, timestamp and SSRC; on either host
byte order. -/
theorem read_rtp_header_rfc3550 (host : ByteOrder) (d : rtp_header)
    (b0 b1 b2 b3 b4 b5 b6 b7 b8 b9 b10 b11 : Byte) :
    read_rtp_header host (some d) (some [b0, b1, b2, b3, b4, b5, b6, b7, b8, b9, b10, b11]) =
      .returns (.RTP_OK, some
        { version := b0.val >>> 6
          padding := (b0.val >>> 5) &&& 1
          ext := (b0.val >>> 4) &&& 1
          cc := b0.val &&& 0x0f
          marker := b1.val >>> 7
          payload := b1.val &&& 0x7f
          seq := b2.val * 2 ^ 8 + b3.val
          timestamp := b4.val * 2 ^ 24 + b5.val * 2 ^ 16 + b6.val * 2 ^ 8 + b7.val
          ssrc := b8.val * 2 ^ 24 + b9.val * 2 ^ 16 + b10.val * 2 ^ 8 + b11.val }) := by
  have h0 := byte_bits b0
  have h1 := byte_bits b1
  simp only [read_rtp_header, List.length_cons, List.length_nil, List.getD_cons_zero,
    List.getD_cons_succ, ntohs_load, ntohl_load, h0.1, h0.2.1, h1.2.2.1]
  rfl

/-- Claim C9 (round trip): a header whose fields fit their widths (version < 4, flags in
{0,1}, cc < 16, payload type < 128, seq < 2^16, timestamp and ssrc < 2^32), encoded into the
12-byte RFC 3550 layout and decoded with `read_rtp_header`, gives back the same nine fields. -/
theorem read_rtp_header_encode (host : ByteOrder) (d h : rtp_header)
    (hv : h.version < 4) (hp : h.padding < 2) (he : h.ext < 2) (hcc : h.cc < 16)
    (hm : h.marker < 2) (hpt : h.payload < 128) (hs : h.seq < 2 ^ 16)
    (ht : h.timestamp < 2 ^ 32) (hss : h.ssrc < 2 ^ 32) :
    read_rtp_header host (some d) (some (encode_rtp_header h)) = .returns (.RTP_OK, some h) := by
  obtain ⟨v, p, e, cc, m, pt, s, t, ss⟩ := h
  simp only at hv hp he hcc hm hpt hs ht hss
  unfold encode_rtp_header
  rw [read_rtp_header_rfc3550]
  have val_ofNat : ∀ n : Nat, ((Fin.ofNat n : Byte)).val = n % 256 := fun _ => rfl
  have h0 := byte_bits (Fin.ofNat (v * 64 + p * 32 + e * 16 + cc))
  have h1 := byte_bits (Fin.ofNat (m * 128 + pt))
  simp only [val_ofNat] at h0 h1 ⊢
  simp only [h0.2.2.2.1, h0.2.2.2.2.1, h0.2.2.2.2.2.1, h0.2.2.2.2.2.2.1, h1.2.2.2.2.2.2.2.1,
    h1.2.2.2.2.2.2.2.2, Exec.returns.injEq, Prod.mk.injEq, Option.some.injEq,
    rtp_header.mk.injEq, true_and]
  refine ⟨?_, ?_, ?_, ?_, ?_, ?_, ?_, ?_, ?_⟩ <;> omega

/-- Witness of C9 on a header with every field set, decoded on a little-endian host. -/
theorem read_rtp_header_encode_witness :
    read_rtp_header .little (some ⟨0, 0, 0, 0, 0, 0, 0, 0, 0⟩)
        (some (encode_rtp_header ⟨2, 1, 1, 5, 1, 96, 4660, 305419896, 3735928559⟩)) =
      .returns (.RTP_OK, some ⟨2, 1, 1, 5, 1, 96, 4660, 305419896, 3735928559⟩) :=
  read_rtp_header_encode .little ⟨0, 0, 0, 0, 0, 0, 0, 0, 0⟩
    ⟨2, 1, 1, 5, 1, 96, 4660, 305419896, 3735928559⟩ (by decide) (by decide) (by decide)
    (by decide) (by decide) (by decide) (by decide) (by decide) (by decide)

/-! ## The frame validator -/

/-- Copying `n` bytes into a new array of `n` bytes gives the first `n` bytes of the source. -/
theorem memcpy_new (buf : List Byte) (n : Nat) :
    memcpy (new_uint8 n) buf n = if n ≤ buf.length then .returns (buf.take n) else .undefined := by
  unfold memcpy new_uint8
  by_cases h : n ≤ buf.length <;> simp [h]

/-- Lines 226-230 in closed form. -/
theorem validate_copy_eq (buf : List Byte) (frame : rtp_frame) (e : rtp_error_t) (a : Nat) :
    validate_copy buf frame e a =
      if frame.total_len ≤ buf.length then
        .returns ⟨some { frame with
            data := some (buf.take frame.total_len)
            payload := some (size_t_sub frame.total_len frame.payload_len) }, e, some buf, a + 1⟩
      else .undefined := by
  unfold validate_copy
  rw [memcpy_new]
  by_cases hl : frame.total_len ≤ buf.length <;> simp only [hl, if_true, if_false]

/-- What a frame returned by the padding block (lines 213-230) looks like. -/
theorem validate_padding_frame (buf : List Byte) (frame : rtp_frame) (e : rtp_error_t) (a : Nat)
    (r : validate_result) (f : rtp_frame)
    (h : validate_padding buf frame e a = .returns r) (hf : r.ret = some f) :
    frame.total_len ≤ buf.length ∧ r.buffer = some buf ∧ r.rtp_errno = e ∧
    f.header = frame.header ∧ f.csrc = frame.csrc ∧ f.total_len = frame.total_len ∧
    f.data = some (buf.take frame.total_len) ∧
    f.payload = some (size_t_sub frame.total_len f.payload_len) ∧
    ((frame.header.padding = 0 ∧ f.payload_len = frame.payload_len ∧
        f.padding_len = frame.padding_len) ∨
     (frame.header.padding ≠ 0 ∧ 0 < f.padding_len ∧ f.padding_len < 256 ∧
        f.padding_len < frame.payload_len ∧
        f.payload_len = size_t_sub frame.payload_len f.padding_len ∧
        ∃ d, frame.data = some d ∧ size_t_sub frame.total_len 1 < d.length ∧
          f.padding_len = (d.getD (size_t_sub frame.total_len 1) 0).val)) := by
  unfold validate_padding at h
  split at h
  · split at h
    · exact absurd h (by simp)
    · rename_i d hd
      split at h
      · rename_i hidx
        simp only at h
        split at h
        · injection h with h
          subst h
          simp at hf
        · rename_i hp
          rw [validate_copy_eq] at h
          split at h
          · rename_i hl
            injection h with h
            subst h
            simp only [Option.some.injEq] at hf
            subst hf
            have := (d.getD (size_t_sub frame.total_len 1) 0).isLt
            refine ⟨hl, rfl, rfl, rfl, rfl, rfl, rfl, rfl, Or.inr ⟨by assumption, ?_, ?_, ?_, rfl, d, hd, hidx, rfl⟩⟩
            · simp only; omega
            · simp only; omega
            · simp only; omega
          · exact absurd h (by simp)
      · exact absurd h (by simp)
  · rename_i hp
    rw [validate_copy_eq] at h
    split at h
    · rename_i hl
      injection h with h
      subst h
      simp only [Option.some.injEq] at hf
      subst hf
      exact ⟨hl, rfl, rfl, rfl, rfl, rfl, rfl, rfl, Or.inl ⟨by simpa using hp, rfl, rfl⟩⟩
    · exact absurd h (by simp)

/-- The CSRC loop returns when its `n` words lie inside the buffer. -/
theorem read_csrc_returns (host : ByteOrder) (buf : List Byte) :
    ∀ (n off : Nat), off + 4 * n ≤ buf.length → ∃ cs, read_csrc host buf off n = .returns cs := by
  intro n
  induction n with
  | zero => intro off _; exact ⟨[], rfl⟩
  | succ k ih =>
    intro off hlen
    obtain ⟨rest, hrest⟩ := ih (off + 4) (by omega)
    have h4 : off + SIZEOF_UINT32 ≤ buf.length := by unfold SIZEOF_UINT32; omega
    simp only [read_csrc, h4, if_true]
    unfold SIZEOF_UINT32
    rw [hrest]
    exact ⟨_, rfl⟩

/-- The CSRC loop stores `n` words, the `i`-th being the host-order load at `off + 4 * i`. -/
theorem read_csrc_words (host : ByteOrder) (buf : List Byte) :
    ∀ (n off : Nat) (cs : List Nat), read_csrc host buf off n = .returns cs →
      cs.length = n ∧
      ∀ i, i < n → cs.getD i 0 =
        load_u32 host (buf.getD (off + 4 * i) 0) (buf.getD (off + 4 * i + 1) 0)
          (buf.getD (off + 4 * i + 2) 0) (buf.getD (off + 4 * i + 3) 0) := by
  intro n
  induction n with
  | zero =>
    intro off cs h
    simp only [read_csrc, Exec.returns.injEq] at h
    subst h
    exact ⟨rfl, fun i hi => absurd hi (by omega)⟩
  | succ k ih =>
    intro off cs h
    simp only [read_csrc] at h
    split at h
    · rename_i h4
      unfold SIZEOF_UINT32 at h4 h
      split at h
      · rename_i rest hrest
        obtain ⟨hl, hw⟩ := ih (off + 4) rest hrest
        simp only [Exec.returns.injEq] at h
        subst h
        refine ⟨by simp [hl], ?_⟩
        intro i hi
        cases i with
        | zero => simp
        | succ j =>
          have := hw j (by omega)
          simp only [List.getD_cons_succ, this]
          have e1 : off + 4 + 4 * j = off + 4 * (j + 1) := by omega
          rw [e1]
      · exact absurd h (by simp)
    · exact absurd h (by simp)

/-- What the CSRC block (lines 184-203) hands to the padding block when a frame is returned. -/
theorem validate_csrc_frame (host : ByteOrder) (buf : List Byte) (frame : rtp_frame)
    (e : rtp_error_t) (a : Nat) (r : validate_result) (f : rtp_frame)
    (h : validate_csrc host buf frame e a = .returns r) (hf : r.ret = some f)
    (hcc : frame.header.cc < 16) (hn1 : 12 ≤ frame.total_len) (hn : frame.total_len < 2 ^ 31)
    (hpl : frame.payload_len = frame.total_len - 12) :
    12 + 4 * frame.header.cc ≤ frame.total_len ∧
    ∃ mid a1, validate_padding buf mid e a1 = .returns r ∧ mid.header = frame.header ∧
      mid.total_len = frame.total_len ∧ mid.data = frame.data ∧
      mid.padding_len = frame.padding_len ∧
      mid.payload_len = frame.total_len - 12 - 4 * frame.header.cc ∧
      (frame.header.cc = 0 → mid.csrc = frame.csrc) ∧
      (0 < frame.header.cc →
        ∃ cs, read_csrc host buf 12 frame.header.cc = .returns cs ∧ mid.csrc = some cs) := by
  unfold validate_csrc at h
  split at h
  · rename_i hpos
    split at h
    · injection h with h
      subst h
      simp at hf
    · rename_i hchk
      rw [csrc_check _ _ hn1 hn hcc] at hchk
      split at h
      · exact absurd h (by simp)
      · rename_i cs hcs
        refine ⟨by omega, _, _, h, rfl, rfl, rfl, rfl, ?_, fun h0 => absurd h0 (by omega),
          fun _ => ⟨cs, hcs, rfl⟩⟩
        simp only [hpl]
        have hm : size_t_mul frame.header.cc SIZEOF_UINT32 = 4 * frame.header.cc := by
          unfold size_t_mul SIZE_MODULUS SIZEOF_UINT32; omega
        rw [hm, size_t_sub_eq _ _ (by omega) (by omega)]
  · rename_i hz
    have hz0 : frame.header.cc = 0 := by omega
    exact ⟨by omega, frame, a, h, rfl, rfl, rfl, rfl, by omega, fun _ => rfl,
      fun hp => absurd hp (by omega)⟩


/-- What every frame returned by `validate_rtp_frame` looks like. -/
theorem validate_rtp_frame_frame (host : ByteOrder) (data0 buffer : Option (List Byte))
    (size : Int) (e : rtp_error_t) (r : validate_result) (f : rtp_frame)
    (hmax : size ≤ INT_MAX)
    (h : validate_rtp_frame host data0 buffer size e = .returns r) (hf : r.ret = some f) :
    ∃ (buf : List Byte) (n : Nat), buffer = some buf ∧ size = (n : Int) ∧ 12 ≤ n ∧
      n ≤ buf.length ∧ r.buffer = some buf ∧ r.rtp_errno = e ∧
      f.header.version = 2 ∧ f.header.cc = (buf.getD 0 0).val &&& 0x0f ∧
      f.header.padding = ((buf.getD 0 0).val >>> 5) &&& 1 ∧
      12 + 4 * f.header.cc ≤ n ∧ f.total_len = n ∧ f.data = some (buf.take n) ∧
      f.payload_len + f.padding_len + 4 * f.header.cc + 12 = n ∧
      f.payload = some (12 + 4 * f.header.cc + f.padding_len) ∧
      (f.header.padding = 0 → f.padding_len = 0) ∧
      (f.header.padding ≠ 0 → 0 < f.padding_len ∧ ∃ d, data0 = some d ∧ n - 1 < d.length ∧
        f.padding_len = (d.getD (n - 1) 0).val) ∧
      (f.header.cc = 0 → f.csrc = none) ∧
      (0 < f.header.cc →
        ∃ cs, read_csrc host buf 12 f.header.cc = .returns cs ∧ f.csrc = some cs) := by
  unfold validate_rtp_frame at h
  cases buffer with
  | none =>
    simp only [Exec.returns.injEq] at h
    subst h
    simp at hf
  | some buf =>
    simp only at h
    split at h
    · injection h with h
      subst h
      simp at hf
    · rename_i hsz
      obtain ⟨n, rfl⟩ := Int.eq_ofNat_of_zero_le (by omega : 0 ≤ size)
      have hn12 : 12 ≤ n := by omega
      have hn31 : n < 2 ^ 31 := by unfold INT_MAX at hmax; omega
      by_cases hl : 12 ≤ buf.length
      · simp only [alloc_rtp_frame, read_rtp_header, hl, if_true, ne_eq, not_true_eq_false,
          if_false, Option.getD_some, to_size_t_natCast n (by omega)] at h
        split at h
        · injection h with h
          subst h
          simp at hf
        · rename_i hver
          have hb := byte_bits (buf.getD 0 0)
          have hlt := (buf.getD 0 0).isLt
          have hcc : ((buf.getD 0 0).val >>> 0) &&& 0x0f < 16 := by
            rw [hb.2.1, hb.2.2.2.2.2.2.1]; omega
          have hps : size_t_sub n SIZEOF_RTP_HEADER = n - 12 :=
            size_t_sub_eq _ _ hn12 (by omega)
          obtain ⟨hle, mid, a1, hmid, mh, mt, md, mp, mpl, mc0, mc1⟩ :=
            validate_csrc_frame host buf _ e 1 r f h hf hcc hn12 hn31 hps
          obtain ⟨hlen, rb, re, fh, fc, ft, fd, fp, hpad⟩ :=
            validate_padding_frame buf mid e a1 r f hmid hf
          simp only at hle mh mt md mp mpl mc0 mc1
          rw [mt] at hlen ft fd fp
          rw [mh] at fh
          rw [mpl] at hpad
          have fcc : f.header.cc = (buf.getD 0 0).val &&& 0x0f := by rw [fh, ← hb.2.1]
          have fv : f.header.version = 2 := by
            rw [fh]
            simp only [RTP_HEADER_VERSION, Decidable.not_not] at hver
            exact hver
          have fpad : f.header.padding = ((buf.getD 0 0).val >>> 5) &&& 1 := by rw [fh]
          rw [hb.2.1] at hle mpl mc0 mc1 hpad
          rw [← fcc] at hle mpl mc0 mc1 hpad
          rw [mh] at hpad
          simp only [mt, md, mp] at hpad
          rw [← fpad, size_t_sub_eq n 1 (by omega) (by omega)] at hpad
          have key : f.payload_len + f.padding_len + 4 * f.header.cc + 12 = n ∧
              (f.header.padding = 0 → f.padding_len = 0) ∧
              (f.header.padding ≠ 0 → 0 < f.padding_len ∧ ∃ d, data0 = some d ∧
                n - 1 < d.length ∧ f.padding_len = (d.getD (n - 1) 0).val) := by
            rcases hpad with ⟨p0, pl, pp⟩ | ⟨p1, ppos, p256, plt, pl, d, hd, hdl, hp⟩
            · exact ⟨by omega, fun _ => pp, fun hne => absurd p0 hne⟩
            · rw [size_t_sub_eq _ _ (by omega) (by omega)] at pl
              exact ⟨by omega, fun h0 => absurd h0 p1, fun _ => ⟨ppos, d, hd, hdl, hp⟩⟩
          obtain ⟨k1, k2, k3⟩ := key
          have fp2 : f.payload = some (12 + 4 * f.header.cc + f.padding_len) := by
            have hoff : n - f.payload_len = 12 + 4 * f.header.cc + f.padding_len := by omega
            rw [fp, size_t_sub_eq _ _ (by omega) (by omega), hoff]
          refine ⟨buf, n, rfl, rfl, hn12, hlen, rb, re, fv, fcc, fpad, hle, ft, fd, k1, fp2, k2,
            k3, fun h0 => by rw [fc]; exact mc0 h0, fun hp => ?_⟩
          obtain ⟨cs, h1, h2⟩ := mc1 hp
          exact ⟨cs, h1, by rw [fc]; exact h2⟩
      · simp [alloc_rtp_frame, read_rtp_header, hl] at h

/-- With the padding flag clear the padding block is skipped. -/
theorem validate_padding_clear (buf : List Byte) (frame : rtp_frame) (e : rtp_error_t) (a : Nat)
    (hp : frame.header.padding = 0) :
    validate_padding buf frame e a = validate_copy buf frame e a := by
  unfold validate_padding
  simp only [hp, ne_eq, not_true_eq_false, if_false]

/-- With version 2 and the padding flag clear the validator returns: no frame when the CSRC
list is longer than the packet, a frame otherwise. -/
theorem validate_rtp_frame_clear_padding_returns (host : ByteOrder) (data0 : Option (List Byte))
    (buf : List Byte) (n : Nat) (e : rtp_error_t)
    (h12 : 12 ≤ n) (hlen : n ≤ buf.length) (h31 : n < 2 ^ 31)
    (hver : (buf.getD 0 0).val >>> 6 = 2) (hpad : ((buf.getD 0 0).val >>> 5) &&& 1 = 0) :
    ∃ r, validate_rtp_frame host data0 (some buf) (n : Int) e = .returns r ∧
      (n < 12 + 4 * ((buf.getD 0 0).val &&& 0x0f) →
        r.ret = none ∧ r.rtp_errno = .RTP_INVALID_VALUE) ∧
      (12 + 4 * ((buf.getD 0 0).val &&& 0x0f) ≤ n → r.ret.isSome) := by
  have hb := byte_bits (buf.getD 0 0)
  have hlt := (buf.getD 0 0).isLt
  have hl : 12 ≤ buf.length := by omega
  have hsz : ¬ ((n : Int) < 12) := by omega
  have hv : ((buf.getD 0 0).val >>> 6) &&& 0x03 = RTP_HEADER_VERSION := by rw [hb.1]; exact hver
  have hcc : (buf.getD 0 0).val &&& 0x0f < 16 := by rw [hb.2.2.2.2.2.2.1]; omega
  simp only [validate_rtp_frame, hsz, if_false, alloc_rtp_frame, read_rtp_header, hl, if_true,
    ne_eq, not_true_eq_false, Option.getD_some, to_size_t_natCast n (by omega), hv,
    validate_csrc, hb.2.1, hpad]
  by_cases hpos : (buf.getD 0 0).val &&& 0x0f > 0
  · simp only [hpos, if_true, csrc_check n _ h12 h31 hcc]
    by_cases hshort : n < 12 + 4 * ((buf.getD 0 0).val &&& 0x0f)
    · simp only [hshort, if_true]
      exact ⟨⟨none, .RTP_INVALID_VALUE, some buf, 1⟩, rfl, fun _ => ⟨rfl, rfl⟩,
        fun h => absurd h (by omega)⟩
    · simp only [hshort, if_false]
      obtain ⟨cs, hcs⟩ := read_csrc_returns host buf ((buf.getD 0 0).val &&& 0x0f) 12 (by omega)
      unfold SIZEOF_RTP_HEADER
      rw [hcs]
      simp only
      rw [validate_padding_clear _ _ _ _ rfl, validate_copy_eq]
      simp only [hlen, if_true]
      exact ⟨_, rfl, fun h => h.elim, fun _ => rfl⟩
  · simp only [hpos, if_false]
    rw [validate_padding_clear _ _ _ _ rfl, validate_copy_eq]
    simp only [hlen, if_true]
    exact ⟨_, rfl, fun h => absurd h (by omega), fun _ => rfl⟩

/-- Claim C1: when the buffer is absent, or `size < 12`, or the two version bits of byte 0
are not 2, `validate_rtp_frame` returns no frame and sets `rtp_errno` to
`RTP_INVALID_VALUE`. -/
theorem validate_rtp_frame_rejects (host : ByteOrder) (data0 buffer : Option (List Byte))
    (size : Int) (rtp_errno : rtp_error_t)
    (h : buffer = none ∨ size < 12 ∨
      ∃ b, buffer = some b ∧ 12 ≤ b.length ∧ (b.getD 0 0).val >>> 6 ≠ 2) :
    ∃ r, validate_rtp_frame host data0 buffer size rtp_errno = .returns r ∧
      r.ret = none ∧ r.rtp_errno = .RTP_INVALID_VALUE := by
  rcases h with h | h | ⟨b, hb, hlen, hver⟩
  · subst h
    exact ⟨⟨none, .RTP_INVALID_VALUE, none, 0⟩, rfl, rfl, rfl⟩
  · cases buffer with
    | none => exact ⟨⟨none, .RTP_INVALID_VALUE, none, 0⟩, rfl, rfl, rfl⟩
    | some buf =>
      exact ⟨⟨none, .RTP_INVALID_VALUE, some buf, 0⟩,
        by simp only [validate_rtp_frame, h, if_true], rfl, rfl⟩
  · subst hb
    by_cases hs : size < 12
    · exact ⟨⟨none, .RTP_INVALID_VALUE, some b, 0⟩,
        by simp only [validate_rtp_frame, hs, if_true], rfl, rfl⟩
    · have hv : ((b.getD 0 0).val >>> 6) &&& 0x03 ≠ RTP_HEADER_VERSION := by
        rw [(byte_bits (b.getD 0 0)).1]; exact hver
      refine ⟨⟨none, .RTP_INVALID_VALUE, some b, 1⟩, ?_, rfl, rfl⟩
      simp only [validate_rtp_frame, hs, if_false, alloc_rtp_frame, read_rtp_header, hlen, if_true,
        ne_eq, not_true_eq_false, Option.getD_some, hv, not_false_eq_true]

/-- Witness of C1: a 12-byte packet of version 1. -/
theorem validate_rtp_frame_rejects_witness :
    ∃ r, validate_rtp_frame .little none (some [0x40, 96, 0, 1, 0, 0, 0, 2, 0, 0, 0, 3]) 12
        .RTP_OK = .returns r ∧ r.ret = none ∧ r.rtp_errno = .RTP_INVALID_VALUE :=
  validate_rtp_frame_rejects .little none (some [0x40, 96, 0, 1, 0, 0, 0, 2, 0, 0, 0, 3]) 12
    .RTP_OK (Or.inr (Or.inr ⟨_, rfl, by decide, by decide⟩))

/-- Claim C3: for a buffer of `size >= 12` bytes with version 2 and the padding flag clear,
`validate_rtp_frame` returns a frame exactly when `size - 12 >= 4 * cc` (and otherwise no
frame, with `RTP_INVALID_VALUE`); the frame has `total_len = size` and
`payload_len = size - 12 - 4 * cc` as integers, that is without wrap-around. -/
theorem validate_rtp_frame_csrc_length (host : ByteOrder) (data0 : Option (List Byte))
    (buf : List Byte) (size : Int) (e : rtp_error_t)
    (h12 : 12 ≤ size) (hlen : size ≤ (buf.length : Int)) (hmax : size ≤ INT_MAX)
    (hver : (buf.getD 0 0).val >>> 6 = 2) (hpad : ((buf.getD 0 0).val >>> 5) &&& 1 = 0) :
    ∃ r, validate_rtp_frame host data0 (some buf) size e = .returns r ∧
      (r.ret.isSome ↔ 4 * (((buf.getD 0 0).val &&& 0x0f : Nat) : Int) ≤ size - 12) ∧
      (r.ret = none → r.rtp_errno = .RTP_INVALID_VALUE) ∧
      ∀ f, r.ret = some f → (f.total_len : Int) = size ∧
        (f.payload_len : Int) = size - 12 - 4 * (((buf.getD 0 0).val &&& 0x0f : Nat) : Int) := by
  obtain ⟨n, rfl⟩ := Int.eq_ofNat_of_zero_le (by omega : 0 ≤ size)
  have h31 : n < 2 ^ 31 := by unfold INT_MAX at hmax; omega
  obtain ⟨r, hr, hshort, hok⟩ := validate_rtp_frame_clear_padding_returns host data0 buf n e
    (by omega) (by omega) h31 hver hpad
  refine ⟨r, hr, ?_, ?_, ?_⟩
  · by_cases hs : n < 12 + 4 * ((buf.getD 0 0).val &&& 0x0f)
    · rw [(hshort hs).1]
      simp only [Option.isSome_none, Bool.false_eq_true, false_iff]
      omega
    · rw [hok (by omega)]
      simp only [true_iff]
      omega
  · intro hnone
    by_cases hs : n < 12 + 4 * ((buf.getD 0 0).val &&& 0x0f)
    · exact (hshort hs).2
    · have := hok (by omega)
      rw [hnone] at this
      exact absurd this (by simp)
  · intro f hf
    obtain ⟨buf2, n2, hb, hn, _, _, _, _, _, hcc, hp, _, ht, _, hinv, _, hp0, _⟩ :=
      validate_rtp_frame_frame host data0 (some buf) n e r f hmax hr hf
    simp only [Option.some.injEq] at hb
    subst hb
    have hnn : n = n2 := by omega
    subst hnn
    have hpl := hp0 (by rw [hp]; exact hpad)
    rw [← hcc]
    omega

/-- Witness of C3 and the first example of the claim: `cc = 2`, `size = 24`. -/
theorem validate_rtp_frame_csrc_length_witness :
    ∃ r, validate_rtp_frame .little none (some packet_two_csrc) 24 .RTP_OK = .returns r ∧
      (r.ret.isSome ↔ 4 * (((packet_two_csrc.getD 0 0).val &&& 0x0f : Nat) : Int) ≤ 24 - 12) ∧
      (r.ret = none → r.rtp_errno = .RTP_INVALID_VALUE) ∧
      ∀ f, r.ret = some f → (f.total_len : Int) = 24 ∧
        (f.payload_len : Int) = 24 - 12 - 4 * (((packet_two_csrc.getD 0 0).val &&& 0x0f : Nat) : Int) :=
  validate_rtp_frame_csrc_length .little none packet_two_csrc 24 .RTP_OK (by decide) (by decide)
    (by decide) (by decide) (by decide)

/-- Two accepted packets, evaluated: `cc = 2` and `size = 24` give `payload_len = 4`;
a header-only packet of 12 bytes gives `payload_len = 0`. -/
theorem validate_rtp_frame_csrc_length_examples :
    validate_rtp_frame .big none (some packet_two_csrc) 24 .RTP_OK =
      .returns ⟨some ⟨⟨2, 0, 0, 2, 0, 96, 1, 2, 3⟩, some [1, 16909060], 0, 4, 24,
        some packet_two_csrc, some 20⟩, .RTP_OK, some packet_two_csrc, 3⟩ ∧
    validate_rtp_frame .big none (some packet_header_only) 12 .RTP_OK =
      .returns ⟨some ⟨⟨2, 0, 0, 0, 0, 96, 1, 2, 3⟩, none, 0, 0, 12,
        some packet_header_only, some 12⟩, .RTP_OK, some packet_header_only, 2⟩ := by
  decide

/-- Claim C6: every frame returned by `validate_rtp_frame` satisfies
`payload_len + padding_len + 4 * cc + 12 = total_len`, with `padding_len = 0` when the padding
flag is clear. -/
theorem validate_rtp_frame_length_invariant (host : ByteOrder)
    (data0 buffer : Option (List Byte)) (size : Int) (e : rtp_error_t) (r : validate_result)
    (f : rtp_frame) (hmax : size ≤ INT_MAX)
    (h : validate_rtp_frame host data0 buffer size e = .returns r) (hf : r.ret = some f) :
    f.payload_len + f.padding_len + 4 * f.header.cc + 12 = f.total_len ∧
      (f.header.padding = 0 → f.padding_len = 0) := by
  obtain ⟨buf, n, _, _, _, _, _, _, _, _, _, _, ht, _, hinv, _, hp0, _⟩ :=
    validate_rtp_frame_frame host data0 buffer size e r f hmax h hf
  exact ⟨by rw [ht]; exact hinv, hp0⟩

/-- Witness of C6 on the packet with two CSRC entries. -/
theorem validate_rtp_frame_length_invariant_witness :
    ∃ r f, validate_rtp_frame .little none (some packet_two_csrc) 24 .RTP_OK = .returns r ∧
      r.ret = some f ∧ f.payload_len + f.padding_len + 4 * f.header.cc + 12 = f.total_len ∧
      (f.header.padding = 0 → f.padding_len = 0) :=
  ⟨⟨some frame_two_csrc, .RTP_OK, some packet_two_csrc, 3⟩,
    frame_two_csrc, by decide, rfl,
    validate_rtp_frame_length_invariant .little none (some packet_two_csrc) 24 .RTP_OK
      ⟨some frame_two_csrc, .RTP_OK, some packet_two_csrc, 3⟩ frame_two_csrc
      (by decide) (by decide) rfl⟩

/-- Claim C8: the owned buffer of a returned frame has exactly `total_len = size` bytes, the
first `size` bytes of the input buffer, and the input buffer is as it was. -/
theorem validate_rtp_frame_owned_copy (host : ByteOrder) (data0 : Option (List Byte))
    (buf : List Byte) (size : Int) (e : rtp_error_t) (r : validate_result) (f : rtp_frame)
    (hmax : size ≤ INT_MAX)
    (h : validate_rtp_frame host data0 (some buf) size e = .returns r) (hf : r.ret = some f) :
    (f.total_len : Int) = size ∧
      (∃ data, f.data = some data ∧ data.length = f.total_len ∧ data = buf.take f.total_len) ∧
      r.buffer = some buf := by
  obtain ⟨buf2, n, hb, hn, _, hlen, hrb, _, _, _, _, _, ht, hd, _⟩ :=
    validate_rtp_frame_frame host data0 (some buf) size e r f hmax h hf
  simp only [Option.some.injEq] at hb
  subst hb
  refine ⟨by rw [ht, hn], ⟨buf.take n, hd, ?_, by rw [ht]⟩, hrb⟩
  rw [ht, List.length_take]
  omega

/-- Witness of C8 on the packet with two CSRC entries. -/
theorem validate_rtp_frame_owned_copy_witness :
    ∃ r f, validate_rtp_frame .little none (some packet_two_csrc) 24 .RTP_OK = .returns r ∧
      r.ret = some f ∧ (f.total_len : Int) = 24 ∧
      (∃ data, f.data = some data ∧ data.length = f.total_len ∧
        data = packet_two_csrc.take f.total_len) ∧
      r.buffer = some packet_two_csrc :=
  ⟨⟨some frame_two_csrc, .RTP_OK, some packet_two_csrc, 3⟩,
    frame_two_csrc, by decide, rfl,
    validate_rtp_frame_owned_copy .little none packet_two_csrc 24 .RTP_OK
      ⟨some frame_two_csrc, .RTP_OK, some packet_two_csrc, 3⟩ frame_two_csrc
      (by decide) (by decide) rfl⟩

/-- The CSRC list of a returned frame: `cc` entries, the `i`-th being the load in host byte
order of the bytes at `12 + 4 * i`; the source applies no `ntohl` to it. -/
theorem validate_rtp_frame_csrc_words (host : ByteOrder) (data0 : Option (List Byte))
    (buf : List Byte) (size : Int) (e : rtp_error_t) (r : validate_result) (f : rtp_frame)
    (hmax : size ≤ INT_MAX)
    (h : validate_rtp_frame host data0 (some buf) size e = .returns r) (hf : r.ret = some f)
    (hcc : 0 < f.header.cc) :
    ∃ cs, f.csrc = some cs ∧ cs.length = f.header.cc ∧
      ∀ i, i < f.header.cc → cs.getD i 0 =
        load_u32 host (buf.getD (12 + 4 * i) 0) (buf.getD (12 + 4 * i + 1) 0)
          (buf.getD (12 + 4 * i + 2) 0) (buf.getD (12 + 4 * i + 3) 0) := by
  obtain ⟨buf2, n, hb, _, _, _, _, _, _, _, _, _, _, _, _, _, _, _, _, hcs⟩ :=
    validate_rtp_frame_frame host data0 (some buf) size e r f hmax h hf
  simp only [Option.some.injEq] at hb
  subst hb
  obtain ⟨cs, hread, hc⟩ := hcs hcc
  obtain ⟨hl, hw⟩ := read_csrc_words host buf f.header.cc 12 cs hread
  exact ⟨cs, hc, hl, hw⟩

/-- On a big-endian host a 32-bit load is the big-endian value of its four bytes, so there the
entries of the CSRC list are the values the spec describes. -/
theorem load_u32_big (b0 b1 b2 b3 : Byte) :
    load_u32 .big b0 b1 b2 b3 = b0.val * 2 ^ 24 + b1.val * 2 ^ 16 + b2.val * 2 ^ 8 + b3.val := by
  simp only [load_u32]
  omega

/-- Claim C4 fails on a little-endian host: the packet `packet_one_csrc` (one CSRC entry with
the bytes `00 00 00 01`) is accepted with `csrc[0] = 16777216`, which is the little-endian
reading of the four bytes, not the big-endian value 1. -/
theorem validate_rtp_frame_csrc_little_endian :
    validate_rtp_frame .little none (some packet_one_csrc) 16 .RTP_OK =
      .returns ⟨some ⟨⟨2, 0, 0, 1, 0, 96, 1, 2, 3⟩, some [16777216], 0, 0, 16,
        some packet_one_csrc, some 16⟩, .RTP_OK, some packet_one_csrc, 3⟩ ∧
    (16777216 : Nat) ≠ (packet_one_csrc.getD 12 0).val * 2 ^ 24
      + (packet_one_csrc.getD 13 0).val * 2 ^ 16 + (packet_one_csrc.getD 14 0).val * 2 ^ 8
      + (packet_one_csrc.getD 15 0).val := by
  decide

/-- When the new frame's `data` pointer is null, no packet with the padding flag set is
accepted: once the version and CSRC checks have passed, the load of line 215 faults. -/
theorem validate_rtp_frame_padding_faults (host : ByteOrder) (buf : List Byte) (n : Nat)
    (e : rtp_error_t) (h12 : 12 ≤ n) (hlen : n ≤ buf.length) (h31 : n < 2 ^ 31)
    (hver : (buf.getD 0 0).val >>> 6 = 2) (hpad : ((buf.getD 0 0).val >>> 5) &&& 1 = 1)
    (hcsrc : 12 + 4 * ((buf.getD 0 0).val &&& 0x0f) ≤ n) :
    validate_rtp_frame host none (some buf) (n : Int) e = .undefined := by
  have hb := byte_bits (buf.getD 0 0)
  have hlt := (buf.getD 0 0).isLt
  have hl : 12 ≤ buf.length := by omega
  have hsz : ¬ ((n : Int) < 12) := by omega
  have hv : ((buf.getD 0 0).val >>> 6) &&& 0x03 = RTP_HEADER_VERSION := by rw [hb.1]; exact hver
  have hcc : (buf.getD 0 0).val &&& 0x0f < 16 := by rw [hb.2.2.2.2.2.2.1]; omega
  have hshort : ¬ n < 12 + 4 * ((buf.getD 0 0).val &&& 0x0f) := by omega
  simp only [validate_rtp_frame, hsz, if_false, alloc_rtp_frame, read_rtp_header, hl, if_true,
    ne_eq, not_true_eq_false, Option.getD_some, to_size_t_natCast n (by omega), hv,
    validate_csrc, hb.2.1, hpad]
  by_cases hpos : (buf.getD 0 0).val &&& 0x0f > 0
  · simp only [hpos, if_true, csrc_check n _ h12 h31 hcc, hshort, if_false]
    obtain ⟨cs, hcs⟩ := read_csrc_returns host buf ((buf.getD 0 0).val &&& 0x0f) 12 (by omega)
    unfold SIZEOF_RTP_HEADER
    rw [hcs]
    simp only [validate_padding, ne_eq, one_ne_zero, not_false_eq_true, if_true]
  · simp only [hpos, if_false, validate_padding, ne_eq, one_ne_zero, not_false_eq_true, if_true]

/-- Claim C5 fails on `packet_padded`, a packet with the padding flag set and last byte
`P = 1 < L = 4`: the padding length is loaded through `frame->data`, which is not yet
assigned. When that load faults the call has no defined result; when it yields a byte other
than the packet's (here 0) the packet is rejected. The claim asks for a frame with
`padding_len = 1` and `payload_len = 3` in both runs. -/
theorem validate_rtp_frame_padding_unassigned_data :
    validate_rtp_frame .little none (some packet_padded) 16 .RTP_OK = .undefined ∧
    validate_rtp_frame .little (some (List.replicate 16 0)) (some packet_padded) 16 .RTP_OK =
      .returns ⟨none, .RTP_INVALID_VALUE, some packet_padded, 1⟩ := by
  decide

/-- The payload pointer of a returned frame is at offset `12 + 4 * cc + padding_len` of the
owned buffer (line 228 adds `total_len - payload_len`). -/
theorem validate_rtp_frame_payload_offset (host : ByteOrder)
    (data0 buffer : Option (List Byte)) (size : Int) (e : rtp_error_t) (r : validate_result)
    (f : rtp_frame) (hmax : size ≤ INT_MAX)
    (h : validate_rtp_frame host data0 buffer size e = .returns r) (hf : r.ret = some f) :
    f.payload = some (12 + 4 * f.header.cc + f.padding_len) := by
  obtain ⟨buf, n, _, _, _, _, _, _, _, _, _, _, _, _, _, hp, _⟩ :=
    validate_rtp_frame_frame host data0 buffer size e r f hmax h hf
  exact hp

/-- What line 228 does with a padded frame, in a run in which the load of line 215 yields the
padding byte of `packet_padded` (a run the null `data` pointer of a new frame rules out): the
frame has `padding_len = 1` and `payload_len = 3`, and the payload pointer is at offset 13,
so the view is the bytes `0b 0c 01`, while the payload bytes `0a 0b 0c` are at the offsets
`[12, 15)`. -/
theorem validate_rtp_frame_padded_payload_view :
    validate_rtp_frame .little (some packet_padded) (some packet_padded) 16 .RTP_OK =
      .returns ⟨some ⟨⟨2, 1, 0, 0, 0, 96, 1, 2, 3⟩, none, 1, 3, 16,
        some packet_padded, some 13⟩, .RTP_OK, some packet_padded, 2⟩ ∧
    (packet_padded.drop 13).take 3 = [11, 12, 1] ∧
    (packet_padded.drop (12 + 4 * 0)).take (16 - 1 - (12 + 4 * 0)) = [10, 11, 12] := by
  decide

/-! ## The receive loop -/

/-- Claim C10: when `recvfrom` succeeds and the validated frame has a payload type that is
none of `RTP_FORMAT_OPUS`, `RTP_FORMAT_HEVC`, `RTP_FORMAT_GENERIC`, the round of
`frame_receiver` sets `ret` to `RTP_INVALID_VALUE`, makes no call but
`update_receiver_stats` (no payload processor, no hook), leaves the output queue and the
hook registration as they were, and goes on to the next round. -/
theorem frame_receiver_unrecognized_payload (host : ByteOrder) (env : collaborators)
    (data0 : Option (List Byte)) (incoming : recvfrom_result) (rd : reader) (fu : fu_state)
    (e : rtp_error_t) (v : validate_result) (f : rtp_frame)
    (hrecv : incoming.ret = .RTP_OK)
    (hval : validate_rtp_frame host data0
      (socket_recvfrom rd.recv_buffer_ rd.recv_buffer_len_ incoming).2.1
      (socket_recvfrom rd.recv_buffer_ rd.recv_buffer_len_ incoming).2.2 e = .returns v)
    (hf : v.ret = some f)
    (hopus : f.header.payload ≠ env.RTP_FORMAT_OPUS)
    (hhevc : f.header.payload ≠ env.RTP_FORMAT_HEVC)
    (hgeneric : f.header.payload ≠ env.RTP_FORMAT_GENERIC) :
    ∃ it, frame_receiver_iteration host env data0 incoming rd fu e = .returns it ∧
      it.ret = .RTP_INVALID_VALUE ∧ it.trace = [.update_receiver_stats f] ∧
      it.reader.framesOut_ = rd.framesOut_ ∧ it.reader.recv_hook_ = rd.recv_hook_ ∧
      it.reader.recv_hook_arg_ = rd.recv_hook_arg_ ∧ it.reader.active_ = rd.active_ ∧
      it.fu = fu ∧ it.continues = true ∧
      ∀ rest, rd.active_ = true →
        frame_receiver host env data0 (incoming :: rest) rd fu e =
          match frame_receiver host env data0 rest it.reader it.fu it.rtp_errno with
          | .undefined => .undefined
          | .returns run => .returns { run with trace := it.trace ++ run.trace } := by
  have hit : frame_receiver_iteration host env data0 incoming rd fu e =
      .returns ⟨{ rd with recv_buffer_ :=
          (socket_recvfrom rd.recv_buffer_ rd.recv_buffer_len_ incoming).2.1 },
        fu, .RTP_INVALID_VALUE, v.rtp_errno, [.update_receiver_stats f], true⟩ := by
    unfold frame_receiver_iteration
    simp only [socket_recvfrom] at hval ⊢
    simp only [hrecv, ne_eq, not_true_eq_false, if_false, hval, hf, dispatch, hopus, hhevc,
      hgeneric, deliver, reduceCtorEq, List.nil_append]
  refine ⟨_, hit, rfl, rfl, rfl, rfl, rfl, rfl, rfl, rfl, ?_⟩
  intro rest hact
  simp only [frame_receiver, hact, if_true, hit]

/-- Witness of C10, the scenario of the spec: the 12-byte packet of version 2 with
`cc = 0`, no padding, no extension, payload type 96 and no payload bytes passes validation
and is dropped, in a session whose payload types do not include 96. -/
theorem frame_receiver_unrecognized_payload_witness :
    ∃ it, frame_receiver_iteration .little collaborators_sample none
        ⟨.RTP_OK, packet_header_only⟩ reader_started (0, []) .RTP_OK = .returns it ∧
      it.ret = .RTP_INVALID_VALUE ∧ it.trace = [.update_receiver_stats frame_header_only] ∧
      it.reader.framesOut_ = reader_started.framesOut_ ∧
      it.reader.recv_hook_ = reader_started.recv_hook_ ∧
      it.reader.recv_hook_arg_ = reader_started.recv_hook_arg_ ∧
      it.reader.active_ = reader_started.active_ ∧
      it.fu = (0, []) ∧ it.continues = true ∧
      ∀ rest, reader_started.active_ = true →
        frame_receiver .little collaborators_sample none
            (⟨.RTP_OK, packet_header_only⟩ :: rest) reader_started (0, []) .RTP_OK =
          match frame_receiver .little collaborators_sample none rest it.reader it.fu
            it.rtp_errno with
          | .undefined => .undefined
          | .returns run => .returns { run with trace := it.trace ++ run.trace } :=
  frame_receiver_unrecognized_payload .little collaborators_sample none
    ⟨.RTP_OK, packet_header_only⟩ reader_started (0, []) .RTP_OK
    ⟨some frame_header_only, .RTP_OK, some (packet_header_only ++ List.replicate 20 0), 2⟩
    frame_header_only rfl (by decide) rfl (by decide) (by decide) (by decide)

/-! ## Delivery and the output queue -/

/-- Claim C11: a completed frame `f` with status `RTP_OK` is handed to the hook when one is
installed, in exactly one call with the registered argument and `f`, and the session (so
the output queue) stays as it was; with no hook installed no call is made and the queue
becomes the old queue with `f` at its tail. -/
theorem deliver_completed_frame (rd : reader) (f : rtp_frame) :
    deliver rd (some f) .RTP_OK =
      match rd.recv_hook_ with
      | some hook => (rd, [.recv_hook hook rd.recv_hook_arg_ (some f)])
      | none => ({ rd with framesOut_ := rd.framesOut_ ++ [f] }, []) := by
  cases h : rd.recv_hook_ <;>
    simp [deliver, recv_hook_installed, recv_hook, add_outgoing_frame, h]

/-- Pushing a list of frames appends it to the queue and changes nothing else. -/
theorem add_outgoing_frames_eq (frames : List rtp_frame) :
    ∀ rd : reader, add_outgoing_frames rd frames =
      { rd with framesOut_ := rd.framesOut_ ++ frames } := by
  induction frames with
  | nil => intro rd; simp [add_outgoing_frames]
  | cons f rest ih =>
    intro rd
    have step : add_outgoing_frames rd (f :: rest) =
        add_outgoing_frames (add_outgoing_frame rd (some f)) rest := rfl
    rw [step, ih]
    simp [add_outgoing_frame]

/-- On an active session with a non-empty queue `pull_frame` does not enter its polling
loop. -/
theorem pull_frame_active_nonempty (others : List (reader → reader)) (rd : reader)
    (f : rtp_frame) (rest : List rtp_frame) (hact : rd.active_ = true)
    (hq : rd.framesOut_ = f :: rest) :
    pull_frame others rd =
      .returned (some f) { rd with framesOut_ := rest }
        [.queue_empty, .read_active, .lock, .queue_front, .queue_erase, .unlock] := by
  cases others <;>
    simp [pull_frame, pull_frame_poll, pull_frame_take, active, hact, hq]

/-- Pulling as many times as there are frames in the queue of an active session returns them
from the head on and empties the queue. -/
theorem pull_frames_all (frames : List rtp_frame) :
    ∀ rd : reader, rd.active_ = true → rd.framesOut_ = frames →
      pull_frames frames.length rd =
        some (frames.map some, { rd with framesOut_ := [] }) := by
  induction frames with
  | nil =>
    intro rd _ hq
    simp only [List.length_nil, pull_frames, List.map_nil, Option.some.injEq, Prod.mk.injEq,
      true_and]
    cases rd
    simp only at hq
    simp [hq]
  | cons f rest ih =>
    intro rd hact hq
    simp only [List.length_cons, pull_frames, pull_frame_active_nonempty [] rd f rest hact hq]
    rw [ih { rd with framesOut_ := rest } hact rfl]
    simp

/-- Claim C12 (FIFO): in an active session with an empty queue, `add_outgoing_frame` on
`f1..fN` followed by `N` calls of `pull_frame` returns `f1..fN` in push order, each once, and
leaves the queue empty. -/
theorem pull_frames_fifo (rd : reader) (frames : List rtp_frame)
    (hact : rd.active_ = true) (hempty : rd.framesOut_ = []) :
    pull_frames frames.length (add_outgoing_frames rd frames) =
      some (frames.map some, rd) := by
  have hall := pull_frames_all frames { rd with framesOut_ := rd.framesOut_ ++ frames } hact
    (by simp [hempty])
  rw [add_outgoing_frames_eq, hall]
  cases rd
  simp only at hempty
  simp [hempty]

/-- Witness of C12: three frames pushed and pulled. -/
theorem pull_frames_fifo_witness :
    pull_frames 3
        (add_outgoing_frames reader_started [frame_generic, frame_header_only, frame_two_csrc]) =
      some ([some frame_generic, some frame_header_only, some frame_two_csrc],
        reader_started) :=
  pull_frames_fifo reader_started [frame_generic, frame_header_only, frame_two_csrc] rfl rfl

/-- On a session that is not active `pull_frame` returns `nullptr` and leaves the session as it
was, whatever its queue holds. -/
theorem pull_frame_inactive (others : List (reader → reader)) (rd : reader)
    (hact : rd.active_ = false) :
    ∃ actions, pull_frame others rd = .returned none rd actions := by
  cases hfs : rd.framesOut_ with
  | nil =>
    exact ⟨[.queue_empty, .read_active, .read_active], by
      cases others <;> simp [pull_frame, pull_frame_poll, pull_frame_take, active, hact, hfs]⟩
  | cons f rest =>
    exact ⟨[.queue_empty, .read_active], by
      cases others <;> simp [pull_frame, pull_frame_poll, pull_frame_take, active, hact, hfs]⟩

/-- Claim C13 as amended: on an active session whose queue is not empty `pull_frame` returns
the head of the queue and removes exactly that frame, the other frames keeping their order
and the rest of the session unchanged; on every session that is not active it returns
`nullptr` and leaves the session, pending frames included, as it was. -/
theorem pull_frame_oldest (others : List (reader → reader)) (rd : reader) :
    (rd.active_ = true → rd.framesOut_ ≠ [] →
      ∃ f rest actions, rd.framesOut_ = f :: rest ∧
        pull_frame others rd = .returned (some f) { rd with framesOut_ := rest } actions) ∧
    (rd.active_ = false → ∃ actions, pull_frame others rd = .returned none rd actions) := by
  refine ⟨fun hact hq => ?_, fun hact => pull_frame_inactive others rd hact⟩
  cases hfs : rd.framesOut_ with
  | nil => exact absurd hfs hq
  | cons f rest =>
    exact ⟨f, rest, _, rfl, pull_frame_active_nonempty others rd f rest hact hfs⟩

/-- Witness of C13 as amended: an active session with two frames queued, and a session that is
not active with one frame queued. -/
theorem pull_frame_oldest_witness :
    (∃ f rest actions, reader_two_pending.framesOut_ = f :: rest ∧
      pull_frame [] reader_two_pending =
        .returned (some f) { reader_two_pending with framesOut_ := rest } actions) ∧
    (∃ actions, pull_frame [] reader_stopped_pending =
      .returned none reader_stopped_pending actions) :=
  ⟨(pull_frame_oldest [] reader_two_pending).1 rfl (by decide),
    (pull_frame_oldest [] reader_stopped_pending).2 rfl⟩

/-- Claim C13 fails on a session that is not active: with a frame in the queue `pull_frame`
returns `nullptr` (line 74-75) and removes nothing. -/
theorem pull_frame_inactive_pending :
    reader_stopped_pending.framesOut_ ≠ [] ∧
    pull_frame [] reader_stopped_pending =
      .returned none reader_stopped_pending [.queue_empty, .read_active] := by
  decide

/-- Claim C14: on a session that is not active and whose queue is empty `pull_frame` returns
`nullptr` without sleeping (no `sleep` among its accesses) and leaves the session as it
was. -/
theorem pull_frame_end_of_stream (others : List (reader → reader)) (rd : reader)
    (hact : rd.active_ = false) (hq : rd.framesOut_ = []) :
    pull_frame others rd = .returned none rd [.queue_empty, .read_active, .read_active] := by
  cases others <;>
    simp [pull_frame, pull_frame_poll, pull_frame_take, active, hact, hq]

/-- Witness of C14. -/
theorem pull_frame_end_of_stream_witness :
    pull_frame [] reader_stopped =
      .returned none reader_stopped [.queue_empty, .read_active, .read_active] :=
  pull_frame_end_of_stream [] reader_stopped rfl rfl

/-- Claim C15 fails: `add_outgoing_frame` pushes a frame without taking `frames_mtx_` (its
only access is the push), and `pull_frame` tests the queue for emptiness before it takes the
mutex; only the front read and the erase are between `lock` and `unlock`. -/
theorem queue_accesses_outside_mutex (f : rtp_frame) (g : rtp_frame) (rest : List rtp_frame)
    (rd : reader) :
    add_outgoing_frame_actions (some f) = [.queue_push] ∧
    pull_frame [] { rd with active_ := true, framesOut_ := g :: rest } =
      .returned (some g) { rd with active_ := true, framesOut_ := rest }
        [.queue_empty, .read_active, .lock, .queue_front, .queue_erase, .unlock] := by
  refine ⟨rfl, ?_⟩
  exact pull_frame_active_nonempty [] _ g rest rfl rfl

/-- Claim C20: `install_recv_hook` with a null function pointer leaves the session as it was;
with a function pointer `hook` it registers exactly `(arg, hook)`, `recv_hook_installed`
becomes true, and the active flag, the output queue and the receive buffer are unchanged. -/
theorem install_recv_hook_effect (rd : reader) (arg : Option Nat) (hook : Nat) :
    install_recv_hook rd arg none = rd ∧
    recv_hook_installed (install_recv_hook rd arg none) = recv_hook_installed rd ∧
    (install_recv_hook rd arg (some hook)).recv_hook_ = some hook ∧
    (install_recv_hook rd arg (some hook)).recv_hook_arg_ = arg ∧
    recv_hook_installed (install_recv_hook rd arg (some hook)) = true ∧
    (install_recv_hook rd arg (some hook)).active_ = rd.active_ ∧
    (install_recv_hook rd arg (some hook)).framesOut_ = rd.framesOut_ ∧
    (install_recv_hook rd arg (some hook)).recv_buffer_ = rd.recv_buffer_ ∧
    (install_recv_hook rd arg (some hook)).recv_buffer_len_ = rd.recv_buffer_len_ ∧
    recv_hook (install_recv_hook rd arg (some hook)) none = [.recv_hook hook arg none] :=
  ⟨rfl, rfl, rfl, rfl, rfl, rfl, rfl, rfl, rfl, rfl⟩

/-! ## One round of the receive loop -/

/-- The round when validation returns no frame: nothing is called and the loop goes on. -/
theorem frame_receiver_iteration_rejected (host : ByteOrder) (env : collaborators)
    (data0 : Option (List Byte)) (incoming : recvfrom_result) (rd : reader) (fu : fu_state)
    (e : rtp_error_t) (v : validate_result)
    (hrecv : incoming.ret = .RTP_OK)
    (hval : validate_rtp_frame host data0
      (socket_recvfrom rd.recv_buffer_ rd.recv_buffer_len_ incoming).2.1
      (socket_recvfrom rd.recv_buffer_ rd.recv_buffer_len_ incoming).2.2 e = .returns v)
    (hv : v.ret = none) :
    frame_receiver_iteration host env data0 incoming rd fu e =
      .returns ⟨{ rd with recv_buffer_ :=
          (socket_recvfrom rd.recv_buffer_ rd.recv_buffer_len_ incoming).2.1 },
        fu, .RTP_OK, v.rtp_errno, [], true⟩ := by
  unfold frame_receiver_iteration
  simp only [socket_recvfrom] at hval ⊢
  simp only [hrecv, ne_eq, not_true_eq_false, if_false, hval, hv]

/-- The round when validation returns the frame `g`: statistics, dispatch, delivery. -/
theorem frame_receiver_iteration_validated (host : ByteOrder) (env : collaborators)
    (data0 : Option (List Byte)) (incoming : recvfrom_result) (rd : reader) (fu : fu_state)
    (e : rtp_error_t) (v : validate_result) (g : rtp_frame)
    (hrecv : incoming.ret = .RTP_OK)
    (hval : validate_rtp_frame host data0
      (socket_recvfrom rd.recv_buffer_ rd.recv_buffer_len_ incoming).2.1
      (socket_recvfrom rd.recv_buffer_ rd.recv_buffer_len_ incoming).2.2 e = .returns v)
    (hv : v.ret = some g) :
    frame_receiver_iteration host env data0 incoming rd fu e =
      .returns
        ⟨(deliver { rd with recv_buffer_ :=
              (socket_recvfrom rd.recv_buffer_ rd.recv_buffer_len_ incoming).2.1 }
            (dispatch env g fu .RTP_OK).1.1 (dispatch env g fu .RTP_OK).1.2.2).1,
          (dispatch env g fu .RTP_OK).1.2.1, (dispatch env g fu .RTP_OK).1.2.2, v.rtp_errno,
          .update_receiver_stats g ::
            ((dispatch env g fu .RTP_OK).2 ++
              (deliver { rd with recv_buffer_ :=
                  (socket_recvfrom rd.recv_buffer_ rd.recv_buffer_len_ incoming).2.1 }
                (dispatch env g fu .RTP_OK).1.1 (dispatch env g fu .RTP_OK).1.2.2).2),
          true⟩ := by
  unfold frame_receiver_iteration
  simp only [socket_recvfrom] at hval ⊢
  simp only [hrecv, ne_eq, not_true_eq_false, if_false, hval, hv]

/-- The dispatch calls at most one payload processor and nothing else. -/
theorem dispatch_calls (env : collaborators) (g : rtp_frame) (fu : fu_state) (ret : rtp_error_t) :
    (dispatch env g fu ret).2 = [] ∨ (dispatch env g fu ret).2 = [.process_opus_frame g] ∨
      (dispatch env g fu ret).2 = [.process_hevc_frame g] ∨
      (dispatch env g fu ret).2 = [.process_generic_frame g] := by
  unfold dispatch
  split
  · exact Or.inr (Or.inl rfl)
  · split
    · exact Or.inr (Or.inr (Or.inl rfl))
    · split
      · exact Or.inr (Or.inr (Or.inr rfl))
      · exact Or.inl rfl

/-- The delivery step makes at most one call, the hook; it leaves everything but the queue as
it was, and with a status other than `RTP_OK` it does nothing. -/
theorem deliver_calls (rd : reader) (frame : Option rtp_frame) (ret : rtp_error_t) :
    ((deliver rd frame ret).2 = [] ∨
      ∃ hook, (deliver rd frame ret).2 = [.recv_hook hook rd.recv_hook_arg_ frame]) ∧
    (ret ≠ .RTP_OK → deliver rd frame ret = (rd, [])) := by
  unfold deliver
  by_cases hr : ret = .RTP_OK
  · simp only [hr, if_true, ne_eq, not_true_eq_false, false_implies, and_true]
    cases hh : rd.recv_hook_ with
    | none => simp [recv_hook_installed, hh]
    | some hook => simp [recv_hook_installed, recv_hook, hh]
  · simp [hr]

/-- Claim C18: in a round of `frame_receiver` whose `recvfrom` succeeded, when validation
returns no frame or the status after dispatch is not `RTP_OK` (`RTP_NOT_READY` or any
other), the hook is not called, the output queue is unchanged, and the loop goes on to the
next round. -/
theorem frame_receiver_delivery_gate (host : ByteOrder) (env : collaborators)
    (data0 : Option (List Byte)) (incoming : recvfrom_result) (rd : reader) (fu : fu_state)
    (e : rtp_error_t) (v : validate_result) (it : iteration)
    (hrecv : incoming.ret = .RTP_OK)
    (hval : validate_rtp_frame host data0
      (socket_recvfrom rd.recv_buffer_ rd.recv_buffer_len_ incoming).2.1
      (socket_recvfrom rd.recv_buffer_ rd.recv_buffer_len_ incoming).2.2 e = .returns v)
    (hit : frame_receiver_iteration host env data0 incoming rd fu e = .returns it)
    (hno : v.ret = none ∨ it.ret ≠ .RTP_OK) :
    (∀ hook arg f, event.recv_hook hook arg f ∉ it.trace) ∧
      it.reader.framesOut_ = rd.framesOut_ ∧ it.continues = true ∧
      ∀ rest, rd.active_ = true →
        frame_receiver host env data0 (incoming :: rest) rd fu e =
          match frame_receiver host env data0 rest it.reader it.fu it.rtp_errno with
          | .undefined => .undefined
          | .returns run => .returns { run with trace := it.trace ++ run.trace } := by
  have hloop : it.continues = true → ∀ rest, rd.active_ = true →
      frame_receiver host env data0 (incoming :: rest) rd fu e =
        match frame_receiver host env data0 rest it.reader it.fu it.rtp_errno with
        | .undefined => .undefined
        | .returns run => .returns { run with trace := it.trace ++ run.trace } := by
    intro hc rest hact
    simp only [frame_receiver, hact, if_true, hit, hc]
  cases hv : v.ret with
  | none =>
    rw [frame_receiver_iteration_rejected host env data0 incoming rd fu e v hrecv hval hv] at hit
    injection hit with hit
    subst hit
    exact ⟨fun _ _ _ h => by simp at h, rfl, rfl, hloop rfl⟩
  | some g =>
    rw [frame_receiver_iteration_validated host env data0 incoming rd fu e v g hrecv hval hv]
      at hit
    injection hit with hit
    subst hit
    have hret : (dispatch env g fu .RTP_OK).1.2.2 ≠ .RTP_OK := by
      rcases hno with h | h
      · rw [hv] at h; exact absurd h (by simp)
      · exact h
    have hd := (deliver_calls { rd with recv_buffer_ :=
        (socket_recvfrom rd.recv_buffer_ rd.recv_buffer_len_ incoming).2.1 }
        (dispatch env g fu .RTP_OK).1.1 (dispatch env g fu .RTP_OK).1.2.2).2 hret
    refine ⟨?_, ?_, rfl, hloop rfl⟩
    · intro hook arg f hmem
      simp only [hd, List.append_nil, List.mem_cons, reduceCtorEq, false_or] at hmem
      rcases dispatch_calls env g fu .RTP_OK with h | h | h | h <;>
        rw [h] at hmem <;> simp at hmem
    · simp only [hd]

/-- Witness of C18: the packet with the unrecognised payload type 96 ends its round with
`RTP_INVALID_VALUE`; no hook call, the queue as before, the loop goes on. -/
theorem frame_receiver_delivery_gate_witness :
    ∃ it, frame_receiver_iteration .little collaborators_sample none
        ⟨.RTP_OK, packet_header_only⟩ reader_started (0, []) .RTP_OK = .returns it ∧
      it.ret = .RTP_INVALID_VALUE ∧
      (∀ hook arg f, event.recv_hook hook arg f ∉ it.trace) ∧
      it.reader.framesOut_ = reader_started.framesOut_ ∧ it.continues = true :=
  have h := frame_receiver_delivery_gate .little collaborators_sample none
    ⟨.RTP_OK, packet_header_only⟩ reader_started (0, []) .RTP_OK
    ⟨some frame_header_only, .RTP_OK, some (packet_header_only ++ List.replicate 20 0), 2⟩
    ⟨{ reader_started with recv_buffer_ := some (packet_header_only ++ List.replicate 20 0) },
      (0, []), .RTP_INVALID_VALUE, .RTP_OK, [.update_receiver_stats frame_header_only], true⟩
    rfl (by decide) (by decide) (Or.inr (by decide))
  ⟨_, by decide, rfl, h.1, h.2.1, h.2.2.1⟩

/-- Claim C19: in a round of `frame_receiver` whose `recvfrom` succeeded,
`update_receiver_stats` is called exactly once when validation returns a frame, with that
frame and before every other call of the round (payload processor or hook), also when the
dispatch then drops the packet; it is not called when validation returns no frame. -/
theorem frame_receiver_stats_once (host : ByteOrder) (env : collaborators)
    (data0 : Option (List Byte)) (incoming : recvfrom_result) (rd : reader) (fu : fu_state)
    (e : rtp_error_t) (v : validate_result) (it : iteration)
    (hrecv : incoming.ret = .RTP_OK)
    (hval : validate_rtp_frame host data0
      (socket_recvfrom rd.recv_buffer_ rd.recv_buffer_len_ incoming).2.1
      (socket_recvfrom rd.recv_buffer_ rd.recv_buffer_len_ incoming).2.2 e = .returns v)
    (hit : frame_receiver_iteration host env data0 incoming rd fu e = .returns it) :
    (∀ g, v.ret = some g →
      ∃ rest, it.trace = .update_receiver_stats g :: rest ∧
        ∀ g2, event.update_receiver_stats g2 ∉ rest) ∧
    (v.ret = none → it.trace = []) := by
  cases hv : v.ret with
  | none =>
    rw [frame_receiver_iteration_rejected host env data0 incoming rd fu e v hrecv hval hv] at hit
    injection hit with hit
    subst hit
    exact ⟨fun g hg => absurd hg (by simp), fun _ => rfl⟩
  | some g =>
    rw [frame_receiver_iteration_validated host env data0 incoming rd fu e v g hrecv hval hv]
      at hit
    injection hit with hit
    subst hit
    refine ⟨fun g1 hg => ?_, fun h => absurd h (by simp)⟩
    simp only [Option.some.injEq] at hg
    subst hg
    refine ⟨_, rfl, ?_⟩
    intro g2 hmem
    rcases (deliver_calls { rd with recv_buffer_ :=
        (socket_recvfrom rd.recv_buffer_ rd.recv_buffer_len_ incoming).2.1 }
        (dispatch env g fu .RTP_OK).1.1 (dispatch env g fu .RTP_OK).1.2.2).1 with hd | ⟨hook, hd⟩ <;>
      rw [hd] at hmem <;>
      rcases dispatch_calls env g fu .RTP_OK with h | h | h | h <;>
        rw [h] at hmem <;> simp at hmem

/-- Witness of C19: a packet of payload type 0 is counted, then processed and queued. -/
theorem frame_receiver_stats_once_witness :
    ∃ it, frame_receiver_iteration .little collaborators_sample none
        ⟨.RTP_OK, packet_generic⟩ reader_started (0, []) .RTP_OK = .returns it ∧
      it.reader.framesOut_ = [frame_generic] ∧
      ∃ rest, it.trace = .update_receiver_stats frame_generic :: rest ∧
        ∀ g2, event.update_receiver_stats g2 ∉ rest :=
  have h := frame_receiver_stats_once .little collaborators_sample none
    ⟨.RTP_OK, packet_generic⟩ reader_started (0, []) .RTP_OK
    ⟨some frame_generic, .RTP_OK, some (packet_generic ++ List.replicate 20 0), 2⟩
    ⟨{ reader_started with
        recv_buffer_ := some (packet_generic ++ List.replicate 20 0)
        framesOut_ := [frame_generic] },
      (0, []), .RTP_OK, .RTP_OK,
      [.update_receiver_stats frame_generic, .process_generic_frame frame_generic], true⟩
    rfl (by decide) (by decide)
  ⟨_, by decide, rfl, h.1 frame_generic rfl⟩

/-! ## Allocations on the failure paths, and the extension flag -/

/-- The copy step adds one allocation, the owned buffer. -/
theorem validate_copy_allocs (buf : List Byte) (frame : rtp_frame) (e : rtp_error_t) (a : Nat)
    (r : validate_result) (h : validate_copy buf frame e a = .returns r) : a ≤ r.allocs := by
  rw [validate_copy_eq] at h
  split at h
  · injection h with h
    subst h
    exact Nat.le_succ a
  · exact absurd h (by simp)

/-- The padding block releases nothing. -/
theorem validate_padding_allocs (buf : List Byte) (frame : rtp_frame) (e : rtp_error_t)
    (a : Nat) (r : validate_result) (h : validate_padding buf frame e a = .returns r) :
    a ≤ r.allocs := by
  unfold validate_padding at h
  split at h
  · split at h
    · exact absurd h (by simp)
    · split at h
      · simp only at h
        split at h
        · injection h with h
          subst h
          exact Nat.le_refl a
        · exact validate_copy_allocs _ _ _ _ _ h
      · exact absurd h (by simp)
  · exact validate_copy_allocs _ _ _ _ _ h

/-- The CSRC block releases nothing. -/
theorem validate_csrc_allocs (host : ByteOrder) (buf : List Byte) (frame : rtp_frame)
    (e : rtp_error_t) (a : Nat) (r : validate_result)
    (h : validate_csrc host buf frame e a = .returns r) : a ≤ r.allocs := by
  unfold validate_csrc at h
  split at h
  · split at h
    · injection h with h
      subst h
      exact Nat.le_refl a
    · split at h
      · exact absurd h (by simp)
      · exact Nat.le_trans (Nat.le_succ a) (validate_padding_allocs _ _ _ _ _ h)
  · exact validate_padding_allocs _ _ _ _ _ h

/-- Every return of `validate_rtp_frame` that comes after the frame allocation of line 156,
so every failure other than the absent buffer and `size < 12`, leaves at least the frame
object allocated: the function has no `delete` and no call of `dealloc_frame`. -/
theorem validate_rtp_frame_allocs (host : ByteOrder) (data0 : Option (List Byte))
    (buf : List Byte) (size : Int) (e : rtp_error_t) (r : validate_result)
    (h12 : ¬ size < 12)
    (h : validate_rtp_frame host data0 (some buf) size e = .returns r) : 1 ≤ r.allocs := by
  unfold validate_rtp_frame at h
  simp only [h12, if_false, alloc_rtp_frame] at h
  by_cases hl : 12 ≤ buf.length
  · simp only [read_rtp_header, hl, if_true, ne_eq, not_true_eq_false, if_false,
      Option.getD_some] at h
    split at h
    · injection h with h
      subst h
      exact Nat.le_refl 1
    · exact validate_csrc_allocs _ _ _ _ _ _ h
  · simp [read_rtp_header, hl] at h

/-- Claim C16 fails: on the failure paths after line 156 the allocated frame object (and the
CSRC array, when it has been allocated) is still allocated when `nullptr` is returned. A
packet of version 1 and a packet whose CSRC list is longer than the packet leave 1 live
allocation, a packet with one CSRC entry and padding length 0 leaves 2; only `size < 12`
leaves none. -/
theorem validate_rtp_frame_failure_leaks :
    validate_rtp_frame .little none (some packet_version_one) 12 .RTP_OK =
      .returns ⟨none, .RTP_INVALID_VALUE, some packet_version_one, 1⟩ ∧
    validate_rtp_frame .little none (some packet_short_csrc) 20 .RTP_OK =
      .returns ⟨none, .RTP_INVALID_VALUE, some packet_short_csrc, 1⟩ ∧
    validate_rtp_frame .little (some packet_padded_csrc) (some packet_padded_csrc) 20 .RTP_OK =
      .returns ⟨none, .RTP_INVALID_VALUE, some packet_padded_csrc, 2⟩ ∧
    validate_rtp_frame .little none (some packet_version_one) 11 .RTP_OK =
      .returns ⟨none, .RTP_INVALID_VALUE, some packet_version_one, 0⟩ := by
  decide

set_option maxRecDepth 1000000 in
/-- Flipping bit 4 of a byte changes the extension bit and no other field of byte 0. -/
theorem ext_bit_flip (x : Byte) :
    ((x.val ^^^ 0x10) >>> 6) &&& 0x03 = (x.val >>> 6) &&& 0x03 ∧
    ((x.val ^^^ 0x10) >>> 5) &&& 0x01 = (x.val >>> 5) &&& 0x01 ∧
    ((x.val ^^^ 0x10) >>> 0) &&& 0x0f = (x.val >>> 0) &&& 0x0f ∧
    ((x.val ^^^ 0x10) >>> 4) &&& 0x01 ≠ (x.val >>> 4) &&& 0x01 := by
  revert x; decide

/-- The CSRC loop starts behind byte 0 and does not see it. -/
theorem read_csrc_tail (host : ByteOrder) (x y : Byte) (t : List Byte) :
    ∀ (n off : Nat), 1 ≤ off →
      read_csrc host (y :: t) off n = read_csrc host (x :: t) off n := by
  intro n
  induction n with
  | zero => intro off _; rfl
  | succ k ih =>
    intro off hoff
    obtain ⟨o, rfl⟩ : ∃ o, off = o + 1 := ⟨off - 1, by omega⟩
    simp only [read_csrc, List.length_cons, List.getD_cons_succ]
    rw [ih (o + 1 + SIZEOF_UINT32) (by omega)]

/-- The padding block and the copy on two buffers that differ in byte 0, for frames that
differ in the extension flag. -/
theorem validate_padding_ext (x y : Byte) (t : List Byte) (frame : rtp_frame) (ext2 : Nat)
    (e : rtp_error_t) (a : Nat) :
    validate_padding (y :: t) { frame with header := { frame.header with ext := ext2 } } e a =
      match validate_padding (x :: t) frame e a with
      | .undefined => .undefined
      | .returns r =>
        .returns { r with
          buffer := some (y :: t)
          ret := r.ret.map fun f =>
            { f with
              header := { f.header with ext := ext2 }
              data := some ((y :: t).take f.total_len) } } := by
  unfold validate_padding
  simp only [validate_copy_eq, List.length_cons]
  by_cases hp : frame.header.padding = 0
  · simp only [if_neg (not_not.mpr hp)]
    by_cases hl : frame.total_len ≤ t.length + 1
    · simp only [hl, if_true, Option.map_some']
    · simp only [hl, if_false]
  · simp only [hp, ne_eq, not_false_eq_true, if_true]
    cases hd : frame.data with
    | none => rfl
    | some d =>
      simp only
      by_cases hi : size_t_sub frame.total_len 1 < d.length
      · simp only [hi, if_true]
        by_cases hc : (d.getD (size_t_sub frame.total_len 1) 0).val = 0 ∨
            frame.payload_len ≤ (d.getD (size_t_sub frame.total_len 1) 0).val
        · simp only [hc, if_true, Option.map_none']
        · simp only [hc, if_false]
          by_cases hl : frame.total_len ≤ t.length + 1
          · simp only [hl, if_true, Option.map_some']
          · simp only [hl, if_false]
      · simp only [hi, if_false]

/-- The CSRC block on two buffers that differ in byte 0, for frames that differ in the
extension flag. -/
theorem validate_csrc_ext (host : ByteOrder) (x y : Byte) (t : List Byte) (frame : rtp_frame)
    (ext2 : Nat) (e : rtp_error_t) (a : Nat) :
    validate_csrc host (y :: t) { frame with header := { frame.header with ext := ext2 } } e a =
      match validate_csrc host (x :: t) frame e a with
      | .undefined => .undefined
      | .returns r =>
        .returns { r with
          buffer := some (y :: t)
          ret := r.ret.map fun f =>
            { f with
              header := { f.header with ext := ext2 }
              data := some ((y :: t).take f.total_len) } } := by
  unfold validate_csrc
  simp only [read_csrc_tail host x y t _ SIZEOF_RTP_HEADER (by decide)]
  by_cases hcc : frame.header.cc > 0
  · simp only [hcc, if_true]
    by_cases hchk : to_ssize_t (size_t_sub (size_t_sub frame.total_len SIZEOF_RTP_HEADER)
        (size_t_mul frame.header.cc SIZEOF_UINT32)) < 0
    · simp only [hchk, if_true, Option.map_none']
    · simp only [hchk, if_false]
      cases hrd : read_csrc host (x :: t) SIZEOF_RTP_HEADER frame.header.cc with
      | undefined => simp only
      | returns cs =>
        simp only
        exact validate_padding_ext x y t
          { frame with
            csrc := some cs
            payload_len :=
              size_t_sub frame.payload_len (size_t_mul frame.header.cc SIZEOF_UINT32) }
          ext2 e (a + 1)
  · simp only [hcc, if_false]
    exact validate_padding_ext x y t frame ext2 e a

/-- The validator on two buffers of the same size that agree everywhere but in byte 0, when
the version, padding and CSRC-count bits of byte 0 agree: the second result is the first with
the extension flag of the second buffer, and with its bytes in the owned copy. -/
theorem validate_rtp_frame_ext_map (host : ByteOrder) (data0 : Option (List Byte))
    (x y : Byte) (t : List Byte) (size : Int) (e : rtp_error_t)
    (hv : (y.val >>> 6) &&& 0x03 = (x.val >>> 6) &&& 0x03)
    (hp : (y.val >>> 5) &&& 0x01 = (x.val >>> 5) &&& 0x01)
    (hc : (y.val >>> 0) &&& 0x0f = (x.val >>> 0) &&& 0x0f) :
    validate_rtp_frame host data0 (some (y :: t)) size e =
      match validate_rtp_frame host data0 (some (x :: t)) size e with
      | .undefined => .undefined
      | .returns r =>
        .returns { r with
          buffer := some (y :: t)
          ret := r.ret.map fun f =>
            { f with
              header := { f.header with ext := (y.val >>> 4) &&& 0x01 }
              data := some ((y :: t).take f.total_len) } } := by
  unfold validate_rtp_frame
  simp only
  by_cases hs : size < 12
  · simp only [hs, if_true, Option.map_none']
  · simp only [hs, if_false, alloc_rtp_frame, read_rtp_header, List.length_cons]
    by_cases hl : 12 ≤ t.length + 1
    · simp only [hl, if_true, ne_eq, not_true_eq_false, if_false, Option.getD_some,
        List.getD_cons_zero, List.getD_cons_succ, hv, hp, hc]
      by_cases hver : (x.val >>> 6) &&& 0x03 = RTP_HEADER_VERSION
      · simp only [hver, not_true_eq_false, if_false]
        exact validate_csrc_ext host x y t
          ⟨⟨_, _, (x.val >>> 4) &&& 0x01, _, _, _, _, _, _⟩, _, _, _, _, _, _⟩
          ((y.val >>> 4) &&& 0x01) e 1
      · simp only [hver, not_false_eq_true, if_true, Option.map_none']
    · simp only [hl, if_false]

/-- Claim C17: for two buffers of the same size that differ only in bit 4 of byte 0 (the
extension bit), `validate_rtp_frame` is undefined on both, or returns no frame on both, or
returns on both a frame with the same `total_len`, `payload_len`, `padding_len`, CSRC list and
payload offset; the two frames differ only in `header.ext` and in the owned copies of the
two buffers. -/
theorem validate_rtp_frame_ext_independent (host : ByteOrder) (data0 : Option (List Byte))
    (x y : Byte) (t : List Byte) (size : Int) (e : rtp_error_t)
    (hxy : y.val = x.val ^^^ 0x10) :
    match validate_rtp_frame host data0 (some (x :: t)) size e,
      validate_rtp_frame host data0 (some (y :: t)) size e with
    | .undefined, .undefined => True
    | .returns r1, .returns r2 =>
      r1.rtp_errno = r2.rtp_errno ∧ r1.allocs = r2.allocs ∧
      match r1.ret, r2.ret with
      | none, none => True
      | some f1, some f2 =>
        f1.total_len = f2.total_len ∧ f1.payload_len = f2.payload_len ∧
        f1.padding_len = f2.padding_len ∧ f1.csrc = f2.csrc ∧ f1.payload = f2.payload ∧
        f2.header = { f1.header with ext := f2.header.ext } ∧
        f1.header.ext ≠ f2.header.ext ∧
        f1.data = some ((x :: t).take f1.total_len) ∧
        f2.data = some ((y :: t).take f1.total_len)
      | _, _ => False
    | _, _ => False := by
  have hb := ext_bit_flip x
  rw [← hxy] at hb
  have h2 := validate_rtp_frame_ext_map host data0 x y t size e hb.1 hb.2.1 hb.2.2.1
  have h1 := validate_rtp_frame_ext_map host data0 x x t size e rfl rfl rfl
  cases hv : validate_rtp_frame host data0 (some (x :: t)) size e with
  | undefined =>
    rw [hv] at h2
    rw [h2]
    trivial
  | returns r1 =>
    rw [hv] at h1 h2
    simp only at h1 h2
    rw [h2]
    simp only [true_and]
    injection h1 with h1
    have hret := congrArg validate_result.ret h1
    simp only at hret
    cases hr : r1.ret with
    | none => simp only [Option.map_none']
    | some f1 =>
      rw [hr] at hret
      simp only [Option.map_some', Option.some.injEq] at hret
      have hext : f1.header.ext = (x.val >>> 4) &&& 0x01 := by
        have := congrArg (fun f => f.header.ext) hret
        simpa using this
      have hdata : f1.data = some ((x :: t).take f1.total_len) := by
        have := congrArg (fun f => f.data) hret
        simpa using this
      simp only [Option.map_some', true_and]
      refine ⟨?_, hdata, trivial⟩
      rw [hext]
      exact fun h => hb.2.2.2 h.symm

/-- Witness of C17: the header-only packet with and without the extension flag. -/
theorem validate_rtp_frame_ext_independent_witness :
    match validate_rtp_frame .little none (some packet_header_only) 12 .RTP_OK,
      validate_rtp_frame .little none (some packet_header_only_ext) 12 .RTP_OK with
    | .undefined, .undefined => True
    | .returns r1, .returns r2 =>
      r1.rtp_errno = r2.rtp_errno ∧ r1.allocs = r2.allocs ∧
      match r1.ret, r2.ret with
      | none, none => True
      | some f1, some f2 =>
        f1.total_len = f2.total_len ∧ f1.payload_len = f2.payload_len ∧
        f1.padding_len = f2.padding_len ∧ f1.csrc = f2.csrc ∧ f1.payload = f2.payload ∧
        f2.header = { f1.header with ext := f2.header.ext } ∧
        f1.header.ext ≠ f2.header.ext ∧
        f1.data = some (packet_header_only.take f1.total_len) ∧
        f2.data = some (packet_header_only_ext.take f1.total_len)
      | _, _ => False
    | _, _ => False :=
  validate_rtp_frame_ext_independent .little none 0x80 0x90
    [96, 0, 1, 0, 0, 0, 2, 0, 0, 0, 3] 12 .RTP_OK (by decide)

/-- The two packets of the witness above, evaluated: both are accepted. -/
theorem validate_rtp_frame_ext_examples :
    validate_rtp_frame .little none (some packet_header_only) 12 .RTP_OK =
      .returns ⟨some frame_header_only, .RTP_OK, some packet_header_only, 2⟩ ∧
    validate_rtp_frame .little none (some packet_header_only_ext) 12 .RTP_OK =
      .returns ⟨some { frame_header_only with
          header := ⟨2, 0, 1, 0, 0, 96, 1, 2, 3⟩
          data := some packet_header_only_ext }, .RTP_OK, some packet_header_only_ext, 2⟩ := by
  decide

end kvz_rtp
